import Mathlib

/-!
# Seg3D MRC layer importer: header parsing and payload reading

A shallow embedding of `src/Application/LayerIO/MRCLayerImporter.cc`
(`MRCLayerImporterPrivate::read_header`, `MRCLayerImporterPrivate::read_data`,
`MRCLayerImporter::get_file_data`).

Conventions of the embedding.

* C++ `int` header fields are `Int`; `size_t` values are `Nat` reduced modulo `2 ^ 64`.
* The header values that end up in `double` coordinates (samplings, start offsets,
  origins) are only copied by the code, never computed with; they are carried as
  rationals.
* The external MRC reader, the file system and the allocator are not part of the
  translation unit; what they answer during one call is collected in `ReaderReply`
  and `World` and passed explicitly.
* The constants of `mrcheader.h` (`MRC_CHAR`, `MRC_SHORT`, `MRC_FLOAT`,
  `MRC_HEADER_LENGTH`) are parameters, see `MRCConsts`.
* `read_data` follows the `std::ifstream` branch and `read_data_win32` the `_WIN32`
  branch; the chunked `ReadFile` loop of the latter is `win32_transfer`, with a bound on
  the number of iterations.
-/

namespace Seg3D

/-! ## Machine integers -/

/-- The number of values of a `size_t` (64-bit). -/
def SIZE_T_RANGE : Nat := 2 ^ 64

/-- Conversion of a C++ `int` to `size_t`: reduction modulo `2 ^ 64`. -/
def toSizeT (x : Int) : Nat := (x % (SIZE_T_RANGE : Int)).toNat

/-- Unsigned `size_t` subtraction `a - b`, wrapping modulo `2 ^ 64`. -/
def subSizeT (a b : Nat) : Nat := (a % SIZE_T_RANGE + SIZE_T_RANGE - b % SIZE_T_RANGE) % SIZE_T_RANGE

/-- Unsigned `size_t` multiplication `a * b`, wrapping modulo `2 ^ 64`. -/
def mulSizeT (a b : Nat) : Nat := (a * b) % SIZE_T_RANGE

/-- A C++ `int` is a 32-bit two's complement value. -/
def isInt32 (x : Int) : Prop := -(2 ^ 31) ≤ x ∧ x < 2 ^ 31

instance (x : Int) : Decidable (isInt32 x) := by
  unfold isInt32; infer_instance

/-! ## Data model -/

/-- The constants of `mrcheader.h` used by the importer.  The header file lies outside
this translation unit, so the values are parameters; the three mode codes are pairwise
different (they are labels of one `switch`), and the header length fits a `size_t`. -/
structure MRCConsts where
  MRC_CHAR : Int
  MRC_SHORT : Int
  MRC_FLOAT : Int
  MRC_HEADER_LENGTH : Nat
  char_ne_short : MRC_CHAR ≠ MRC_SHORT
  char_ne_float : MRC_CHAR ≠ MRC_FLOAT
  short_ne_float : MRC_SHORT ≠ MRC_FLOAT
  header_length_lt : MRC_HEADER_LENGTH < SIZE_T_RANGE

/-- The values of the MRC2000 format: modes 0, 1, 2 and a 1024 byte header. -/
def mrc2000 : MRCConsts where
  MRC_CHAR := 0
  MRC_SHORT := 1
  MRC_FLOAT := 2
  MRC_HEADER_LENGTH := 1024
  char_ne_short := by decide
  char_ne_float := by decide
  short_ne_float := by decide
  header_length_lt := by decide

/-- The fields of `MRC2000IO::MRCHeader` that the importer reads. -/
structure MRCHeader where
  mode : Int
  nx : Int
  ny : Int
  nz : Int
  mx : ℚ
  my : ℚ
  mz : ℚ
  nxstart : ℚ
  nystart : ℚ
  nzstart : ℚ
  xorigin : ℚ
  yorigin : ℚ
  zorigin : ℚ
  mapc : Int
  mapr : Int
  maps : Int
deriving DecidableEq

/-- The integer fields of a header are C++ `int`s. -/
def MRCHeader.wf (h : MRCHeader) : Prop :=
  isInt32 h.mode ∧ isInt32 h.nx ∧ isInt32 h.ny ∧ isInt32 h.nz ∧
  isInt32 h.mapc ∧ isInt32 h.mapr ∧ isInt32 h.maps

instance (h : MRCHeader) : Decidable h.wf := by
  unfold MRCHeader.wf; infer_instance

/-- The observable state of `MRC2000IO::MRCReader`: `get_error()`, `use_new_origin()`
and `swap_endian()`. -/
structure MRCReader where
  error : String
  use_new_origin : Bool
  swap_endian : Bool
deriving DecidableEq

/-- What the call `mrcreader_.read_header( filename, header_ )` does: its return value,
the state of the reader afterwards and the contents of `header_` afterwards. -/
structure ReaderReply where
  ok : Bool
  reader : MRCReader
  header : MRCHeader
deriving DecidableEq

/-- The values of `Core::DataType` that occur in the importer. -/
inductive DataType where
  | UNKNOWN_E
  | CHAR_E
  | SHORT_E
  | FLOAT_E
deriving DecidableEq, Repr

/-- `Core::Point` and `Core::Vector`: three coordinates. -/
structure Vector3 where
  x : ℚ
  y : ℚ
  z : ℚ
deriving DecidableEq

/-- `Core::Transform( origin, v1, v2, v3 )`: the affine map with the given origin and
axis vectors. -/
structure Transform where
  origin : Vector3
  v1 : Vector3
  v2 : Vector3
  v3 : Vector3
deriving DecidableEq

/-- `Core::GridTransform`: three `size_t` dimensions, a transform and the node-centering
flag. -/
structure GridTransform where
  nx : Nat
  ny : Nat
  nz : Nat
  transform : Transform
  originally_node_centered : Bool
deriving DecidableEq

/-- One byte of a file or a buffer. -/
abbrev Byte := Fin 256

/-- `Core::DataBlock`: dimensions, element type and the bytes behind its data pointer. -/
structure DataBlock where
  nx : Nat
  ny : Nat
  nz : Nat
  data_type : DataType
  data : List Byte
deriving DecidableEq

/-- The part of the owning `MRCLayerImporter` reached through `importer_`: the error
channel written by `set_error` (`none` until the first call). -/
structure LayerImporter where
  error : Option String
deriving DecidableEq

/-- The class `MRCLayerImporterPrivate`. -/
structure MRCLayerImporterPrivate where
  importer_ : LayerImporter
  data_block_ : Option DataBlock
  grid_transform_ : GridTransform
  data_type_ : DataType
  header_ : MRCHeader
  mrcreader_ : MRCReader
  read_header_ : Bool
  read_data_ : Bool
deriving DecidableEq

/-- `importer_->set_error( msg )`. -/
def MRCLayerImporterPrivate.set_error (s : MRCLayerImporterPrivate) (msg : String) :
    MRCLayerImporterPrivate :=
  { s with importer_ := { s.importer_ with error := some msg } }

/-! ## `MRCLayerImporterPrivate::read_header` -/

/-- The result of one axis `switch`: the dimension, the spacing and the origin written
for that output axis. -/
structure AxisEntry where
  dim : Nat
  spacing : ℚ
  origin : ℚ
deriving DecidableEq

/-- The `switch (this->header_.mapc)` block: the column (fastest) axis. -/
def switch_mapc (h : MRCHeader) (use_new_origin : Bool) : Option AxisEntry :=
  if h.mapc = 1 then
    some ⟨toSizeT h.nx, h.mx, if use_new_origin then h.xorigin else h.nxstart⟩
  else if h.mapc = 2 then
    some ⟨toSizeT h.ny, h.my, if use_new_origin then h.yorigin else h.nystart⟩
  else if h.mapc = 3 then
    some ⟨toSizeT h.nz, h.mz, if use_new_origin then h.zorigin else h.nzstart⟩
  else none

/-- The `switch (header_.mapr)` block: the row (medium) axis. -/
def switch_mapr (h : MRCHeader) (use_new_origin : Bool) : Option AxisEntry :=
  if h.mapr = 1 then
    some ⟨toSizeT h.nx, h.mx, if use_new_origin then h.xorigin else h.nxstart⟩
  else if h.mapr = 2 then
    some ⟨toSizeT h.ny, h.my, if use_new_origin then h.yorigin else h.nystart⟩
  else if h.mapr = 3 then
    some ⟨toSizeT h.nz, h.mz, if use_new_origin then h.zorigin else h.nzstart⟩
  else none

/-- The `switch (header_.maps)` block: the section (slowest) axis. -/
def switch_maps (h : MRCHeader) (use_new_origin : Bool) : Option AxisEntry :=
  if h.maps = 1 then
    some ⟨toSizeT h.nx, h.mx, if use_new_origin then h.xorigin else h.nxstart⟩
  else if h.maps = 2 then
    some ⟨toSizeT h.ny, h.my, if use_new_origin then h.yorigin else h.nystart⟩
  else if h.maps = 3 then
    some ⟨toSizeT h.nz, h.mz, if use_new_origin then h.zorigin else h.nzstart⟩
  else none

/-- The `switch (header_.mode)` block. -/
def switch_mode (c : MRCConsts) (mode : Int) : Option DataType :=
  if mode = c.MRC_CHAR then some DataType.CHAR_E
  else if mode = c.MRC_SHORT then some DataType.SHORT_E
  else if mode = c.MRC_FLOAT then some DataType.FLOAT_E
  else none

/-- `MRCLayerImporterPrivate::read_header`: the return value and the state afterwards.
`reply` is what the external reader answers if it is called. -/
def read_header (c : MRCConsts) (reply : ReaderReply) (s : MRCLayerImporterPrivate) :
    Bool × MRCLayerImporterPrivate :=
  if s.read_header_ then (true, s)
  else
    let s1 := { s with mrcreader_ := reply.reader, header_ := reply.header }
    if !reply.ok then (false, s1.set_error s1.mrcreader_.error)
    else
      match switch_mode c s1.header_.mode with
      | none => (false, s1.set_error "Unsupported MRC format.")
      | some dt =>
        let s2 := { s1 with data_type_ := dt }
        let use_new_origin := s2.mrcreader_.use_new_origin
        match switch_mapc s2.header_ use_new_origin with
        | none => (false, s2.set_error "Bad mapc axis value")
        | some col =>
          match switch_mapr s2.header_ use_new_origin with
          | none => (false, s2.set_error "Bad mapr axis value")
          | some row =>
            match switch_maps s2.header_ use_new_origin with
            | none => (false, s2.set_error "Bad maps axis value")
            | some sec =>
              let origin : Vector3 := ⟨col.origin, row.origin, sec.origin⟩
              let transform : Transform :=
                ⟨origin, ⟨col.spacing, 0, 0⟩, ⟨0, row.spacing, 0⟩, ⟨0, 0, sec.spacing⟩⟩
              let gt : GridTransform := ⟨col.dim, row.dim, sec.dim, transform, false⟩
              (true, { s2 with grid_transform_ := gt, read_header_ := true })

/-! ## `MRCLayerImporterPrivate::read_data` and `MRCLayerImporter::get_file_data` -/

/-- What the environment answers during one call of `read_data`: the reply of the MRC
reader (used if the header has to be parsed), whether `Core::StdDataBlock::New` returns
a non-null handle, the contents of the file (`none` if it cannot be opened) and the
outcome of `new char[length]` (`none` if it throws, otherwise the indeterminate initial
contents of the new buffer, by offset). -/
structure World where
  reader : ReaderReply
  block_alloc : Bool
  file : Option (List Byte)
  new_char : Option (Nat → Byte)

/-- How a C++ function call ends: it returns a `bool`, or an exception leaves it. -/
inductive Ret where
  | value (b : Bool)
  | exception
deriving DecidableEq, Repr

/-- Modelled from the spec: `Core::GetSizeDataType`, the byte width of one element
(byte-signed 1, short-signed 2, float32 4; nothing for an unknown type). -/
def GetSizeDataType : DataType → Nat
  | DataType.CHAR_E => 1
  | DataType.SHORT_E => 2
  | DataType.FLOAT_E => 4
  | DataType.UNKNOWN_E => 0

/-- Modelled from the spec: `Core::StdDataBlock::New( nx, ny, nz, type )`, a block of the
given dimensions and type that owns its memory; the contents of that memory are not
modelled until `set_data` installs a buffer. -/
def StdDataBlock.New (nx ny nz : Nat) (type : DataType) : DataBlock :=
  ⟨nx, ny, nz, type, []⟩

/-- Modelled from the spec: `DataBlock::get_size`, the number of elements
`nx * ny * nz` as a `size_t`. -/
def DataBlock.get_size (b : DataBlock) : Nat := mulSizeT (mulSizeT b.nx b.ny) b.nz

/-- Modelled from the spec: `DataBlock::set_data`, which makes the block use the given
buffer. -/
def DataBlock.set_data (b : DataBlock) (data : List Byte) : DataBlock :=
  { b with data := data }

/-- Modelled from the spec: the byte order of each of the first `n` elements of width `w`
is reversed; the elements stay where they are. -/
def swapElements (w : Nat) : Nat → List Byte → List Byte
  | 0, bytes => bytes
  | n + 1, bytes => (bytes.take w).reverse ++ swapElements w n (bytes.drop w)

/-- Modelled from the spec: `DataBlock::swap_endian`, which reverses the byte order of
every element in place according to the element size of the block. -/
def DataBlock.swap_endian (b : DataBlock) : DataBlock :=
  { b with data := swapElements (GetSizeDataType b.data_type) b.get_size b.data }

/-- The `std::ifstream` transfer `seekg( pos, beg ); read( data, length )`: the bytes of
the file from `pos` on, at most `length` of them. -/
def ifstream_read (file : List Byte) (pos length : Nat) : List Byte :=
  (file.drop pos).take length

/-- The buffer `data` after the transfer: the delivered bytes, followed by what the
buffer held before where nothing was delivered. -/
def filled_buffer (init : Nat → Byte) (length : Nat) (got : List Byte) : List Byte :=
  got ++ (List.range (length - got.length)).map (fun k => init (got.length + k))

/-- The test `file_size - MRC_HEADER_LENGTH < length` in `size_t` arithmetic. -/
def length_check_fails (c : MRCConsts) (file_size length : Nat) : Bool :=
  decide (subSizeT file_size c.MRC_HEADER_LENGTH < length)

/-- `MRCLayerImporterPrivate::read_data` (the `std::ifstream` branch): how the call ends
and the state afterwards. -/
def read_data (c : MRCConsts) (w : World) (s : MRCLayerImporterPrivate) :
    Ret × MRCLayerImporterPrivate :=
  if s.read_data_ then (Ret.value true, s)
  else
    match read_header c w.reader s with
    | (false, s1) => (Ret.value false, s1.set_error "Failed to read header of MRC file.")
    | (true, s1) =>
      if !w.block_alloc then
        (Ret.value false,
          ({ s1 with data_block_ := none }).set_error
            "Could not allocate enough memory to read MRC file.")
      else
        let blk := StdDataBlock.New s1.grid_transform_.nx s1.grid_transform_.ny
          s1.grid_transform_.nz s1.data_type_
        let s2 := { s1 with data_block_ := some blk }
        match w.file with
        | none => (Ret.value false, s2.set_error "Could not open file.")
        | some bytes =>
          let file_size := bytes.length % SIZE_T_RANGE
          let length := mulSizeT blk.get_size (GetSizeDataType s2.data_type_)
          if length_check_fails c file_size length then
            (Ret.value false, s2.set_error "Incorrect length of file.")
          else
            match w.new_char with
            | none => (Ret.exception, s2)
            | some init =>
              let data := filled_buffer init length
                (ifstream_read bytes c.MRC_HEADER_LENGTH length)
              let blk1 := blk.set_data data
              let blk2 := if s2.mrcreader_.swap_endian then blk1.swap_endian else blk1
              (Ret.value true, { s2 with data_block_ := some blk2, read_data_ := true })

/-- `LayerImporterFileData`: what `get_file_data` hands to the caller. -/
structure LayerImporterFileData where
  data_block : Option DataBlock
  grid_transform : GridTransform
  name : String
deriving DecidableEq

/-- `MRCLayerImporter::get_file_data`: the return value, the state afterwards and the
caller's handle `data` afterwards.  `file_tag` is the value of `get_file_tag()`. -/
def get_file_data (c : MRCConsts) (w : World) (file_tag : String)
    (s : MRCLayerImporterPrivate) (data : Option LayerImporterFileData) :
    Bool × MRCLayerImporterPrivate × Option LayerImporterFileData :=
  match read_data c w s with
  | (Ret.value true, s1) =>
    (true, s1, some ⟨s1.data_block_, s1.grid_transform_, file_tag⟩)
  | (Ret.value false, s1) => (false, s1, data)
  | (Ret.exception, s1) =>
    (false, s1.set_error "MRC Importer crashed when reading file.", data)

/-- A freshly constructed `MRCLayerImporterPrivate`: the constructor's initialisers
(`UNKNOWN_E`, both flags false, no data block); the other members carry placeholder
values, which `read_header` overwrites before anything reads them. -/
def MRCLayerImporterPrivate.init : MRCLayerImporterPrivate where
  importer_ := ⟨none⟩
  data_block_ := none
  grid_transform_ := ⟨0, 0, 0, ⟨⟨0, 0, 0⟩, ⟨0, 0, 0⟩, ⟨0, 0, 0⟩, ⟨0, 0, 0⟩⟩, false⟩
  data_type_ := DataType.UNKNOWN_E
  header_ := ⟨0, 0, 0, 0, 0, 0, 0, 0, 0, 0, 0, 0, 0, 0, 0, 0⟩
  mrcreader_ := ⟨"", false, false⟩
  read_header_ := false
  read_data_ := false

/-! ## Reading the geometry off the state -/

/-- The three output axes: `x` is the column (fastest) axis, `y` the row axis, `z` the
section (slowest) axis. -/
inductive OutputAxis where
  | x
  | y
  | z
deriving DecidableEq, Repr

/-- The selector field of the header that belongs to an output axis. -/
def MRCHeader.selector (h : MRCHeader) : OutputAxis → Int
  | OutputAxis.x => h.mapc
  | OutputAxis.y => h.mapr
  | OutputAxis.z => h.maps

/-- A selector value names a native axis: it is 1, 2 or 3. -/
def validSelector (sel : Int) : Prop := sel = 1 ∨ sel = 2 ∨ sel = 3

instance (sel : Int) : Decidable (validSelector sel) := by
  unfold validSelector; infer_instance

/-- The mode of a header is one of the three supported element codes. -/
def supportedMode (c : MRCConsts) (mode : Int) : Prop :=
  mode = c.MRC_CHAR ∨ mode = c.MRC_SHORT ∨ mode = c.MRC_FLOAT

instance (c : MRCConsts) (mode : Int) : Decidable (supportedMode c mode) := by
  unfold supportedMode; infer_instance

/-- The native extent a selector names: `nx` for 1, `ny` for 2, `nz` for 3. -/
def MRCHeader.native_extent (h : MRCHeader) (sel : Int) : Int :=
  if sel = 1 then h.nx else if sel = 2 then h.ny else h.nz

/-- The native sampling a selector names: `mx` for 1, `my` for 2, `mz` for 3. -/
def MRCHeader.native_sampling (h : MRCHeader) (sel : Int) : ℚ :=
  if sel = 1 then h.mx else if sel = 2 then h.my else h.mz

/-- The native origin a selector names under the file-wide origin convention: the
alternate origin when `use_new_origin` holds, the start offset otherwise. -/
def MRCHeader.native_origin (h : MRCHeader) (use_new_origin : Bool) (sel : Int) : ℚ :=
  if use_new_origin then
    (if sel = 1 then h.xorigin else if sel = 2 then h.yorigin else h.zorigin)
  else
    (if sel = 1 then h.nxstart else if sel = 2 then h.nystart else h.nzstart)

/-- The dimension of a grid transform along an output axis (`get_nx`, `get_ny`,
`get_nz`). -/
def GridTransform.dims (g : GridTransform) : OutputAxis → Nat
  | OutputAxis.x => g.nx
  | OutputAxis.y => g.ny
  | OutputAxis.z => g.nz

/-- The spacing of a grid transform along an output axis: the diagonal entry of its
axis vector. -/
def GridTransform.spacing (g : GridTransform) : OutputAxis → ℚ
  | OutputAxis.x => g.transform.v1.x
  | OutputAxis.y => g.transform.v2.y
  | OutputAxis.z => g.transform.v3.z

/-- The origin of a grid transform along an output axis. -/
def GridTransform.origin (g : GridTransform) : OutputAxis → ℚ
  | OutputAxis.x => g.transform.origin.x
  | OutputAxis.y => g.transform.origin.y
  | OutputAxis.z => g.transform.origin.z

/-- The number of payload bytes a parsed geometry implies:
`dims[0] * dims[1] * dims[2] * element_size`, as a natural number. -/
def expected_bytes (s : MRCLayerImporterPrivate) : Nat :=
  s.grid_transform_.nx * s.grid_transform_.ny * s.grid_transform_.nz *
    GetSizeDataType s.data_type_

/-- The state `read_header` reaches on a delivered, valid header. -/
def parsed_state (s : MRCLayerImporterPrivate) (reply : ReaderReply) (dt : DataType) :
    MRCLayerImporterPrivate :=
  { s with
    mrcreader_ := reply.reader
    header_ := reply.header
    data_type_ := dt
    grid_transform_ :=
      ⟨toSizeT (reply.header.native_extent reply.header.mapc),
        toSizeT (reply.header.native_extent reply.header.mapr),
        toSizeT (reply.header.native_extent reply.header.maps),
        ⟨⟨reply.header.native_origin reply.reader.use_new_origin reply.header.mapc,
            reply.header.native_origin reply.reader.use_new_origin reply.header.mapr,
            reply.header.native_origin reply.reader.use_new_origin reply.header.maps⟩,
          ⟨reply.header.native_sampling reply.header.mapc, 0, 0⟩,
          ⟨0, reply.header.native_sampling reply.header.mapr, 0⟩,
          ⟨0, 0, reply.header.native_sampling reply.header.maps⟩⟩,
        false⟩
    read_header_ := true }

/-- The state after the reader has been called: reader and header replaced. -/
def called_state (s : MRCLayerImporterPrivate) (reply : ReaderReply) :
    MRCLayerImporterPrivate :=
  { s with mrcreader_ := reply.reader, header_ := reply.header }

/-- The reply used in the examples: a float32 header with column axis = native axis 2,
row axis = native axis 1, section axis = native axis 3, `ny = 10`, `my = 2.0`,
`yorigin = 5.0`. -/
def exampleReply : ReaderReply where
  ok := true
  reader := ⟨"", true, false⟩
  header :=
    { mode := 2, nx := 7, ny := 10, nz := 3, mx := 1, my := 2, mz := 3,
      nxstart := -1, nystart := -2, nzstart := -3, xorigin := 4, yorigin := 5, zorigin := 6,
      mapc := 2, mapr := 1, maps := 3 }

/-- The message `read_header` sets for the first selector that is out of range, in the
order column, row, section. -/
def bad_axis_message (h : MRCHeader) : String :=
  if ¬ validSelector h.mapc then "Bad mapc axis value"
  else if ¬ validSelector h.mapr then "Bad mapr axis value"
  else "Bad maps axis value"

/-- The message a failing `read_header` sets: the reader's error if the reader failed,
the format message for an unsupported element code, and otherwise the message of the
first selector out of range. -/
def failure_message (c : MRCConsts) (reply : ReaderReply) : String :=
  if reply.ok = false then reply.reader.error
  else if ¬ supportedMode c reply.header.mode then "Unsupported MRC format."
  else bad_axis_message reply.header

/-- A delivered float32 header whose row and section selectors are out of range. -/
def badAxisReply : ReaderReply :=
  { exampleReply with header := { exampleReply.header with mapr := 0, maps := 7 } }

/-- A delivered header with an element code outside the supported ones. -/
def badModeReply : ReaderReply :=
  { exampleReply with header := { exampleReply.header with mode := 7 } }

/-- The `size_t` value `length` that `read_data` computes from a parsed state:
`data_block_->get_size() * GetSizeDataType( data_type_ )`. -/
def payload_length (s : MRCLayerImporterPrivate) : Nat :=
  mulSizeT (StdDataBlock.New s.grid_transform_.nx s.grid_transform_.ny s.grid_transform_.nz
    s.data_type_).get_size (GetSizeDataType s.data_type_)

/-- The state of `read_data` once the data block has been allocated. -/
def allocated_state (s : MRCLayerImporterPrivate) : MRCLayerImporterPrivate :=
  { s with data_block_ := some (StdDataBlock.New s.grid_transform_.nx s.grid_transform_.ny
      s.grid_transform_.nz s.data_type_) }

/-- The data block `read_data` leaves behind on success: the buffer after the transfer,
byte-swapped if the reader asks for it. -/
def loaded_block (c : MRCConsts) (s : MRCLayerImporterPrivate) (bytes : List Byte)
    (init : Nat → Byte) : DataBlock :=
  if s.mrcreader_.swap_endian then
    ((StdDataBlock.New s.grid_transform_.nx s.grid_transform_.ny s.grid_transform_.nz
      s.data_type_).set_data (filled_buffer init (payload_length s)
        (ifstream_read bytes c.MRC_HEADER_LENGTH (payload_length s)))).swap_endian
  else
    (StdDataBlock.New s.grid_transform_.nx s.grid_transform_.ny s.grid_transform_.nz
      s.data_type_).set_data (filled_buffer init (payload_length s)
        (ifstream_read bytes c.MRC_HEADER_LENGTH (payload_length s)))

/-- A delivered float32 header of one voxel; the reader asks for a byte swap or not. -/
def unitReply (swap : Bool) : ReaderReply where
  ok := true
  reader := ⟨"", false, swap⟩
  header :=
    { mode := 2, nx := 1, ny := 1, nz := 1, mx := 1, my := 1, mz := 1,
      nxstart := 0, nystart := 0, nzstart := 0, xorigin := 0, yorigin := 0, zorigin := 0,
      mapc := 1, mapr := 2, maps := 3 }

/-- A file with a 1024 byte header followed by the payload `00 00 80 3F`. -/
def unitWorld (swap : Bool) : World where
  reader := unitReply swap
  block_alloc := true
  file := some (List.replicate 1024 0 ++ [0x00, 0x00, 0x80, 0x3F])
  new_char := some (fun _ => 0)

/-- A delivered float32 header with `dims = [4, 4, 4]`. -/
def cubeReply : ReaderReply where
  ok := true
  reader := ⟨"", false, false⟩
  header :=
    { mode := 2, nx := 4, ny := 4, nz := 4, mx := 1, my := 1, mz := 1,
      nxstart := 0, nystart := 0, nzstart := 0, xorigin := 0, yorigin := 0, zorigin := 0,
      mapc := 1, mapr := 2, maps := 3 }

/-- The importer after `read_header` has parsed the `4 x 4 x 4` float32 header. -/
def parsedCube : MRCLayerImporterPrivate :=
  (read_header mrc2000 cubeReply MRCLayerImporterPrivate.init).2

/-- A file of 100 bytes, shorter than the 1024 byte header, at the time of `read_data`. -/
def truncatedWorld : World where
  reader := cubeReply
  block_alloc := true
  file := some (List.replicate 100 0)
  new_char := some (fun _ => 0)

/-- A delivered float32 header whose column selector names a native axis of extent 0. -/
def zeroExtentReply : ReaderReply :=
  { exampleReply with header := { exampleReply.header with ny := 0 } }

/-- A delivered float32 header with a negative native extent `nx = -5`. -/
def negativeExtentReply : ReaderReply :=
  { exampleReply with header := { exampleReply.header with nx := -5 } }

/-! ## The `_WIN32` transfer of `read_data` -/

/-- The local `size_t chunk = 1UL<<30`. -/
def CHUNK : Nat := 2 ^ 30

/-- Conversion of a `size_t` to a Win32 `DWORD` (32-bit unsigned). -/
def toDWORD (n : Nat) : Nat := n % 2 ^ 32

/-- The variables of the chunked transfer: the buffer `data`, the offset of `data_ptr`
from `data`, `read_length`, the position of the file handle, and the record of the
`ReadFile` calls made so far (bytes requested, bytes read) in the order of the calls. -/
structure ChunkedRead where
  data : List Byte
  data_ptr : Nat
  read_length : Nat
  file_pointer : Nat
  calls : List (Nat × Nat)
deriving DecidableEq

/-- `ReadFile( file_desc, data_ptr, request, &dwReadBytes, NULL )`: the bytes of the file
from the position of the handle on, at most `request` of them and at most as many as
the system delivers in this call (`grant`), are stored from `data_ptr` on and the handle
moves past them.  The result is `dwReadBytes` and the variables afterwards. -/
def ReadFile (file : List Byte) (grant request : Nat) (st : ChunkedRead) :
    Nat × ChunkedRead :=
  let got := (file.drop st.file_pointer).take (min request grant)
  (got.length,
    { st with
      data := st.data.take st.data_ptr ++ got ++ st.data.drop (st.data_ptr + got.length)
      file_pointer := st.file_pointer + got.length
      calls := st.calls ++ [(request, got.length)] })

/-- The body of `while ( read_length > chunk )`: one `ReadFile` of `DWORD(chunk)` bytes,
then `read_length -= dwReadBytes` and `data_ptr += dwReadBytes`.  What the system
delivers in the call is `grant` at the number of the call. -/
def chunk_loop_body (file : List Byte) (grant : Nat → Nat) (st : ChunkedRead) :
    ChunkedRead :=
  let r := ReadFile file (grant st.calls.length) (toDWORD CHUNK) st
  { r.2 with
    read_length := subSizeT r.2.read_length r.1
    data_ptr := r.2.data_ptr + r.1 }

/-- The loop `while ( read_length > chunk )` run for at most `fuel` iterations: the
variables at the exit of the loop, or `none` if the condition still holds when the
iterations are used up. -/
def chunk_loop (file : List Byte) (grant : Nat → Nat) : Nat → ChunkedRead → Option ChunkedRead
  | 0, st => if CHUNK < st.read_length then none else some st
  | fuel + 1, st =>
    if CHUNK < st.read_length then chunk_loop file grant fuel (chunk_loop_body file grant st)
    else some st

/-- The `_WIN32` transfer of `read_data`: `data_ptr = data`, `read_length = length`, the
loop, and the last `ReadFile` of `DWORD( read_length )` bytes.  The file handle stands at
`pos` (the code has set it to `MRC_HEADER_LENGTH`). -/
def win32_transfer (file : List Byte) (grant : Nat → Nat) (fuel : Nat) (data : List Byte)
    (length pos : Nat) : Option ChunkedRead :=
  match chunk_loop file grant fuel ⟨data, 0, length, pos, []⟩ with
  | none => none
  | some st => some (ReadFile file (grant st.calls.length) (toDWORD st.read_length) st).2

/-- The number of bytes transferred over all `ReadFile` calls. -/
def ChunkedRead.transferred (st : ChunkedRead) : Nat := (st.calls.map Prod.snd).sum

/-- The loop invariant of the chunked transfer from position `pos` for `length` bytes:
handle and `data_ptr` have advanced by the bytes transferred so far, `read_length` is
what is left of `length`, and the buffer holds the transferred bytes in file order. -/
def ChunkedRead.inv (file : List Byte) (length pos : Nat) (st : ChunkedRead) : Prop :=
  st.file_pointer = pos + st.data_ptr ∧
  st.data_ptr + st.read_length = length ∧
  st.data.length = length ∧
  st.transferred = st.data_ptr ∧
  st.data_ptr ≤ file.length - pos ∧
  st.data.take st.data_ptr = (file.drop pos).take st.data_ptr ∧
  ∀ c ∈ st.calls, c.1 ≤ CHUNK ∧ c.2 ≤ c.1

/-- The data block `read_data` stores for a buffer `data`: the block allocated for the
parsed geometry with `data` installed, byte-swapped if the reader asks for it. -/
def stored_block (s : MRCLayerImporterPrivate) (data : List Byte) : DataBlock :=
  if s.mrcreader_.swap_endian then
    ((StdDataBlock.New s.grid_transform_.nx s.grid_transform_.ny s.grid_transform_.nz
      s.data_type_).set_data data).swap_endian
  else
    (StdDataBlock.New s.grid_transform_.nx s.grid_transform_.ny s.grid_transform_.nz
      s.data_type_).set_data data

/-- `MRCLayerImporterPrivate::read_data` (the `_WIN32` branch): as `read_data`, with the
file opened by `CreateFileA`, its size taken from `SetFilePointerEx`, the handle set to
`MRC_HEADER_LENGTH` and the payload read by the chunked `ReadFile` transfer; no statement
looks at what `ReadFile` returns.  What the system delivers in each call is `grant`; the
result is `none` if the loop has not come to an end within `fuel` iterations. -/
def read_data_win32 (c : MRCConsts) (w : World) (grant : Nat → Nat) (fuel : Nat)
    (s : MRCLayerImporterPrivate) : Option (Ret × MRCLayerImporterPrivate) :=
  if s.read_data_ then some (Ret.value true, s)
  else
    match read_header c w.reader s with
    | (false, s1) =>
      some (Ret.value false, s1.set_error "Failed to read header of MRC file.")
    | (true, s1) =>
      if !w.block_alloc then
        some (Ret.value false,
          ({ s1 with data_block_ := none }).set_error
            "Could not allocate enough memory to read MRC file.")
      else
        let blk := StdDataBlock.New s1.grid_transform_.nx s1.grid_transform_.ny
          s1.grid_transform_.nz s1.data_type_
        let s2 := { s1 with data_block_ := some blk }
        match w.file with
        | none => some (Ret.value false, s2.set_error "Could not open file.")
        | some bytes =>
          let file_size := bytes.length % SIZE_T_RANGE
          let length := mulSizeT blk.get_size (GetSizeDataType s2.data_type_)
          if length_check_fails c file_size length then
            some (Ret.value false, s2.set_error "Incorrect length of file.")
          else
            match w.new_char with
            | none => some (Ret.exception, s2)
            | some init =>
              match win32_transfer bytes grant fuel (filled_buffer init length []) length
                  c.MRC_HEADER_LENGTH with
              | none => none
              | some tr =>
                let blk1 := blk.set_data tr.data
                let blk2 := if s2.mrcreader_.swap_endian then blk1.swap_endian else blk1
                some (Ret.value true, { s2 with data_block_ := some blk2, read_data_ := true })

/-- The one-voxel float32 file with its full header and its four payload bytes; the new
buffer holds `AA` in every byte before the transfer. -/
def patternWorld : World :=
  { unitWorld false with new_char := some (fun _ => 0xAA) }

set_option maxRecDepth 100000

/-! ## Auxiliary lemmas -/

theorem switch_mapc_of_valid (h : MRCHeader) (u : Bool) (hv : validSelector h.mapc) :
    switch_mapc h u = some ⟨toSizeT (h.native_extent h.mapc), h.native_sampling h.mapc,
      h.native_origin u h.mapc⟩ := by
  rcases hv with e | e | e <;>
    cases u <;>
    simp [switch_mapc, MRCHeader.native_extent, MRCHeader.native_sampling,
      MRCHeader.native_origin, e]

theorem switch_mapr_of_valid (h : MRCHeader) (u : Bool) (hv : validSelector h.mapr) :
    switch_mapr h u = some ⟨toSizeT (h.native_extent h.mapr), h.native_sampling h.mapr,
      h.native_origin u h.mapr⟩ := by
  rcases hv with e | e | e <;>
    cases u <;>
    simp [switch_mapr, MRCHeader.native_extent, MRCHeader.native_sampling,
      MRCHeader.native_origin, e]

theorem switch_maps_of_valid (h : MRCHeader) (u : Bool) (hv : validSelector h.maps) :
    switch_maps h u = some ⟨toSizeT (h.native_extent h.maps), h.native_sampling h.maps,
      h.native_origin u h.maps⟩ := by
  rcases hv with e | e | e <;>
    cases u <;>
    simp [switch_maps, MRCHeader.native_extent, MRCHeader.native_sampling,
      MRCHeader.native_origin, e]

theorem switch_mapc_of_invalid (h : MRCHeader) (u : Bool) (hv : ¬ validSelector h.mapc) :
    switch_mapc h u = none := by
  simp only [validSelector, not_or] at hv
  simp [switch_mapc, hv.1, hv.2.1, hv.2.2]

theorem switch_mapr_of_invalid (h : MRCHeader) (u : Bool) (hv : ¬ validSelector h.mapr) :
    switch_mapr h u = none := by
  simp only [validSelector, not_or] at hv
  simp [switch_mapr, hv.1, hv.2.1, hv.2.2]

theorem switch_maps_of_invalid (h : MRCHeader) (u : Bool) (hv : ¬ validSelector h.maps) :
    switch_maps h u = none := by
  simp only [validSelector, not_or] at hv
  simp [switch_maps, hv.1, hv.2.1, hv.2.2]

theorem switch_mode_of_supported (c : MRCConsts) (mode : Int) (hm : supportedMode c mode) :
    ∃ dt, switch_mode c mode = some dt ∧
      (mode = c.MRC_CHAR → dt = DataType.CHAR_E) ∧
      (mode = c.MRC_SHORT → dt = DataType.SHORT_E) ∧
      (mode = c.MRC_FLOAT → dt = DataType.FLOAT_E) := by
  have h1 := c.char_ne_short
  have h2 := c.char_ne_float
  have h3 := c.short_ne_float
  rcases hm with e | e | e
  · refine ⟨DataType.CHAR_E, by simp [switch_mode, e], fun _ => rfl, ?_, ?_⟩
    · intro e2; exact absurd (e.symm.trans e2) h1
    · intro e2; exact absurd (e.symm.trans e2) h2
  · refine ⟨DataType.SHORT_E, by simp [switch_mode, e, Ne.symm h1], ?_, fun _ => rfl, ?_⟩
    · intro e2; exact absurd (e2.symm.trans e) h1
    · intro e2; exact absurd (e.symm.trans e2) h3
  · refine ⟨DataType.FLOAT_E,
      by simp [switch_mode, e, Ne.symm h2, Ne.symm h3], ?_, ?_, fun _ => rfl⟩
    · intro e2; exact absurd (e2.symm.trans e) h2
    · intro e2; exact absurd (e2.symm.trans e) h3

theorem switch_mode_of_unsupported (c : MRCConsts) (mode : Int)
    (hm : ¬ supportedMode c mode) : switch_mode c mode = none := by
  simp only [supportedMode, not_or] at hm
  simp [switch_mode, hm.1, hm.2.1, hm.2.2]

theorem read_header_of_valid (c : MRCConsts) (reply : ReaderReply)
    (s : MRCLayerImporterPrivate) (hs : s.read_header_ = false) (hok : reply.ok = true)
    (dt : DataType) (hm : switch_mode c reply.header.mode = some dt)
    (hc : validSelector reply.header.mapc) (hr : validSelector reply.header.mapr)
    (hz : validSelector reply.header.maps) :
    read_header c reply s = (true, parsed_state s reply dt) := by
  simp [read_header, hs, hok, hm, switch_mapc_of_valid _ _ hc, switch_mapr_of_valid _ _ hr,
    switch_maps_of_valid _ _ hz, parsed_state]

theorem read_header_of_reader_failure (c : MRCConsts) (reply : ReaderReply)
    (s : MRCLayerImporterPrivate) (hs : s.read_header_ = false) (hok : reply.ok = false) :
    read_header c reply s = (false, (called_state s reply).set_error reply.reader.error) := by
  simp [read_header, hs, hok, called_state]

theorem read_header_of_unsupported (c : MRCConsts) (reply : ReaderReply)
    (s : MRCLayerImporterPrivate) (hs : s.read_header_ = false) (hok : reply.ok = true)
    (hm : ¬ supportedMode c reply.header.mode) :
    read_header c reply s =
      (false, (called_state s reply).set_error "Unsupported MRC format.") := by
  simp [read_header, hs, hok, switch_mode_of_unsupported c _ hm, called_state]

theorem read_header_of_bad_mapc (c : MRCConsts) (reply : ReaderReply)
    (s : MRCLayerImporterPrivate) (hs : s.read_header_ = false) (hok : reply.ok = true)
    (dt : DataType) (hm : switch_mode c reply.header.mode = some dt)
    (hc : ¬ validSelector reply.header.mapc) :
    read_header c reply s =
      (false, ({ called_state s reply with data_type_ := dt }).set_error
        "Bad mapc axis value") := by
  simp [read_header, hs, hok, hm, switch_mapc_of_invalid _ _ hc, called_state]

theorem read_header_of_bad_mapr (c : MRCConsts) (reply : ReaderReply)
    (s : MRCLayerImporterPrivate) (hs : s.read_header_ = false) (hok : reply.ok = true)
    (dt : DataType) (hm : switch_mode c reply.header.mode = some dt)
    (hc : validSelector reply.header.mapc) (hr : ¬ validSelector reply.header.mapr) :
    read_header c reply s =
      (false, ({ called_state s reply with data_type_ := dt }).set_error
        "Bad mapr axis value") := by
  simp [read_header, hs, hok, hm, switch_mapc_of_valid _ _ hc,
    switch_mapr_of_invalid _ _ hr, called_state]

theorem read_header_of_bad_maps (c : MRCConsts) (reply : ReaderReply)
    (s : MRCLayerImporterPrivate) (hs : s.read_header_ = false) (hok : reply.ok = true)
    (dt : DataType) (hm : switch_mode c reply.header.mode = some dt)
    (hc : validSelector reply.header.mapc) (hr : validSelector reply.header.mapr)
    (hz : ¬ validSelector reply.header.maps) :
    read_header c reply s =
      (false, ({ called_state s reply with data_type_ := dt }).set_error
        "Bad maps axis value") := by
  simp [read_header, hs, hok, hm, switch_mapc_of_valid _ _ hc, switch_mapr_of_valid _ _ hr,
    switch_maps_of_invalid _ _ hz, called_state]

theorem read_header_of_cached (c : MRCConsts) (reply : ReaderReply)
    (s : MRCLayerImporterPrivate) (hs : s.read_header_ = true) :
    read_header c reply s = (true, s) := by
  simp [read_header, hs]

theorem toSizeT_of_nonneg (x : Int) (h0 : 0 ≤ x) (h1 : x < 2 ^ 64) :
    ((toSizeT x : Nat) : Int) = x := by
  unfold toSizeT SIZE_T_RANGE
  have e : x % ((2 ^ 64 : Nat) : Int) = x := Int.emod_eq_of_lt h0 (by exact_mod_cast h1)
  rw [e]
  exact Int.toNat_of_nonneg h0

theorem read_header_eq_true_iff (c : MRCConsts) (reply : ReaderReply)
    (s : MRCLayerImporterPrivate) (hs : s.read_header_ = false) (hok : reply.ok = true) :
    (read_header c reply s).1 = true ↔
      (supportedMode c reply.header.mode ∧ validSelector reply.header.mapc ∧
        validSelector reply.header.mapr ∧ validSelector reply.header.maps) := by
  by_cases hm : supportedMode c reply.header.mode
  · obtain ⟨dt, hdt, -⟩ := switch_mode_of_supported c _ hm
    by_cases hc : validSelector reply.header.mapc
    · by_cases hr : validSelector reply.header.mapr
      · by_cases hz : validSelector reply.header.maps
        · rw [read_header_of_valid c reply s hs hok dt hdt hc hr hz]
          exact ⟨fun _ => ⟨hm, hc, hr, hz⟩, fun _ => rfl⟩
        · rw [read_header_of_bad_maps c reply s hs hok dt hdt hc hr hz]
          exact ⟨fun h => by simp at h, fun h => absurd h.2.2.2 hz⟩
      · rw [read_header_of_bad_mapr c reply s hs hok dt hdt hc hr]
        exact ⟨fun h => by simp at h, fun h => absurd h.2.2.1 hr⟩
    · rw [read_header_of_bad_mapc c reply s hs hok dt hdt hc]
      exact ⟨fun h => by simp at h, fun h => absurd h.2.1 hc⟩
  · rw [read_header_of_unsupported c reply s hs hok hm]
    exact ⟨fun h => by simp at h, fun h => absurd h.1 hm⟩

theorem read_header_of_bad_axis (c : MRCConsts) (reply : ReaderReply)
    (s : MRCLayerImporterPrivate) (hs : s.read_header_ = false) (hok : reply.ok = true)
    (hm : supportedMode c reply.header.mode)
    (hbad : ¬ (validSelector reply.header.mapc ∧ validSelector reply.header.mapr ∧
      validSelector reply.header.maps)) :
    (read_header c reply s).1 = false ∧
    (read_header c reply s).2.importer_.error = some (bad_axis_message reply.header) ∧
    (read_header c reply s).2.read_header_ = false := by
  obtain ⟨dt, hdt, -⟩ := switch_mode_of_supported c _ hm
  by_cases hc : validSelector reply.header.mapc
  · by_cases hr : validSelector reply.header.mapr
    · have hz : ¬ validSelector reply.header.maps := fun hz => hbad ⟨hc, hr, hz⟩
      rw [read_header_of_bad_maps c reply s hs hok dt hdt hc hr hz]
      simp [bad_axis_message, hc, hr, MRCLayerImporterPrivate.set_error, called_state, hs]
    · rw [read_header_of_bad_mapr c reply s hs hok dt hdt hc hr]
      simp [bad_axis_message, hc, hr, MRCLayerImporterPrivate.set_error, called_state, hs]
  · rw [read_header_of_bad_mapc c reply s hs hok dt hdt hc]
    simp [bad_axis_message, hc, MRCLayerImporterPrivate.set_error, called_state, hs]

/-! ## Header parsing: the claims -/

/-- C1: on a delivered header with a supported mode and selectors drawn independently
from 1, 2, 3, `read_header` succeeds and, for every output axis, stores the extent, the
sampling and the origin of the native axis that the axis's selector names; the extent is
stored as a `size_t` (so it is the extent itself whenever that is non-negative), and the
origin is the alternate origin on all axes when `use_new_origin()` holds and the start
offset on all axes otherwise. -/
theorem read_header_axis_mapping (c : MRCConsts) (reply : ReaderReply)
    (s : MRCLayerImporterPrivate) (hs : s.read_header_ = false) (hok : reply.ok = true)
    (hm : supportedMode c reply.header.mode)
    (hsel : ∀ r : OutputAxis, validSelector (reply.header.selector r)) :
    (read_header c reply s).1 = true ∧
    (read_header c reply s).2.header_ = reply.header ∧
    (read_header c reply s).2.mrcreader_ = reply.reader ∧
    ∀ r : OutputAxis,
      (read_header c reply s).2.grid_transform_.dims r =
          toSizeT (reply.header.native_extent (reply.header.selector r)) ∧
      (0 ≤ reply.header.native_extent (reply.header.selector r) →
        reply.header.native_extent (reply.header.selector r) < 2 ^ 64 →
        (((read_header c reply s).2.grid_transform_.dims r : Nat) : Int) =
          reply.header.native_extent (reply.header.selector r)) ∧
      (read_header c reply s).2.grid_transform_.spacing r =
          reply.header.native_sampling (reply.header.selector r) ∧
      (read_header c reply s).2.grid_transform_.origin r =
          reply.header.native_origin reply.reader.use_new_origin
            (reply.header.selector r) := by
  obtain ⟨dt, hdt, -⟩ := switch_mode_of_supported c _ hm
  rw [read_header_of_valid c reply s hs hok dt hdt (hsel OutputAxis.x) (hsel OutputAxis.y)
    (hsel OutputAxis.z)]
  refine ⟨rfl, rfl, rfl, ?_⟩
  intro r
  cases r
  · exact ⟨rfl, fun h0 h1 => toSizeT_of_nonneg _ h0 h1, rfl, rfl⟩
  · exact ⟨rfl, fun h0 h1 => toSizeT_of_nonneg _ h0 h1, rfl, rfl⟩
  · exact ⟨rfl, fun h0 h1 => toSizeT_of_nonneg _ h0 h1, rfl, rfl⟩

/-- Witness for C1: with `mapc = 2`, `mapr = 1`, `maps = 3`, `ny = 10`, `my = 2.0` and
`yorigin = 5.0` the hypotheses hold and the mapping applies. -/
theorem read_header_axis_mapping_witness :
    (MRCLayerImporterPrivate.init.read_header_ = false ∧ exampleReply.ok = true ∧
      supportedMode mrc2000 exampleReply.header.mode ∧
      ∀ r : OutputAxis, validSelector (exampleReply.header.selector r)) ∧
    ((read_header mrc2000 exampleReply MRCLayerImporterPrivate.init).1 = true ∧
    (read_header mrc2000 exampleReply MRCLayerImporterPrivate.init).2.header_ =
      exampleReply.header ∧
    (read_header mrc2000 exampleReply MRCLayerImporterPrivate.init).2.mrcreader_ =
      exampleReply.reader ∧
    ∀ r : OutputAxis,
      (read_header mrc2000 exampleReply MRCLayerImporterPrivate.init).2.grid_transform_.dims
          r = toSizeT (exampleReply.header.native_extent (exampleReply.header.selector r)) ∧
      (0 ≤ exampleReply.header.native_extent (exampleReply.header.selector r) →
        exampleReply.header.native_extent (exampleReply.header.selector r) < 2 ^ 64 →
        (((read_header mrc2000 exampleReply
            MRCLayerImporterPrivate.init).2.grid_transform_.dims r : Nat) : Int) =
          exampleReply.header.native_extent (exampleReply.header.selector r)) ∧
      (read_header mrc2000 exampleReply
          MRCLayerImporterPrivate.init).2.grid_transform_.spacing r =
        exampleReply.header.native_sampling (exampleReply.header.selector r) ∧
      (read_header mrc2000 exampleReply
          MRCLayerImporterPrivate.init).2.grid_transform_.origin r =
        exampleReply.header.native_origin exampleReply.reader.use_new_origin
          (exampleReply.header.selector r)) ∧
    ((read_header mrc2000 exampleReply MRCLayerImporterPrivate.init).2.grid_transform_.nx =
        10 ∧
      (read_header mrc2000 exampleReply MRCLayerImporterPrivate.init).2.grid_transform_.ny =
        toSizeT exampleReply.header.nx ∧
      (read_header mrc2000 exampleReply MRCLayerImporterPrivate.init).2.grid_transform_.nz =
        toSizeT exampleReply.header.nz ∧
      (read_header mrc2000 exampleReply
          MRCLayerImporterPrivate.init).2.grid_transform_.transform =
        ⟨⟨5, exampleReply.header.xorigin, exampleReply.header.zorigin⟩,
          ⟨2, 0, 0⟩, ⟨0, exampleReply.header.mx, 0⟩, ⟨0, 0, exampleReply.header.mz⟩⟩) :=
  ⟨⟨rfl, rfl, by decide, by intro r; cases r <;> decide⟩,
    read_header_axis_mapping mrc2000 exampleReply MRCLayerImporterPrivate.init rfl rfl
      (by decide) (by intro r; cases r <;> decide),
    by decide, by decide, by decide, by decide⟩

/-- C2: from an instance whose header is not yet parsed, and with the reader delivering
the header, `read_header` returns true exactly when the mode is `MRC_CHAR`, `MRC_SHORT`
or `MRC_FLOAT` and each of `mapc`, `mapr`, `maps` is 1, 2 or 3, with no uniqueness
required (all three selectors equal to 1 give the dimensions `nx, nx, nx`); on success
`data_type_` is `CHAR_E`, `SHORT_E` or `FLOAT_E` respectively and `read_header_` is
true. -/
theorem read_header_success_iff (c : MRCConsts) (reply : ReaderReply)
    (s : MRCLayerImporterPrivate) (hs : s.read_header_ = false) (hok : reply.ok = true) :
    ((read_header c reply s).1 = true ↔
      (supportedMode c reply.header.mode ∧ validSelector reply.header.mapc ∧
        validSelector reply.header.mapr ∧ validSelector reply.header.maps)) ∧
    ((read_header c reply s).1 = true →
      (read_header c reply s).2.read_header_ = true ∧
      (reply.header.mode = c.MRC_CHAR →
        (read_header c reply s).2.data_type_ = DataType.CHAR_E) ∧
      (reply.header.mode = c.MRC_SHORT →
        (read_header c reply s).2.data_type_ = DataType.SHORT_E) ∧
      (reply.header.mode = c.MRC_FLOAT →
        (read_header c reply s).2.data_type_ = DataType.FLOAT_E)) ∧
    (supportedMode c reply.header.mode → reply.header.mapc = 1 → reply.header.mapr = 1 →
      reply.header.maps = 1 →
      (read_header c reply s).1 = true ∧
      (read_header c reply s).2.grid_transform_.nx = toSizeT reply.header.nx ∧
      (read_header c reply s).2.grid_transform_.ny = toSizeT reply.header.nx ∧
      (read_header c reply s).2.grid_transform_.nz = toSizeT reply.header.nx) := by
  have key := read_header_eq_true_iff c reply s hs hok
  refine ⟨key, ?_, ?_⟩
  · intro h
    obtain ⟨hm, hc, hr, hz⟩ := key.mp h
    obtain ⟨dt, hdt, h1, h2, h3⟩ := switch_mode_of_supported c _ hm
    rw [read_header_of_valid c reply s hs hok dt hdt hc hr hz]
    exact ⟨rfl, h1, h2, h3⟩
  · intro hm e1 e2 e3
    obtain ⟨dt, hdt, -⟩ := switch_mode_of_supported c _ hm
    have hc : validSelector reply.header.mapc := Or.inl e1
    have hr : validSelector reply.header.mapr := Or.inl e2
    have hz : validSelector reply.header.maps := Or.inl e3
    rw [read_header_of_valid c reply s hs hok dt hdt hc hr hz]
    simp [parsed_state, MRCHeader.native_extent, e1, e2, e3]

/-- Witness for C2: a fresh instance and a delivered header. -/
theorem read_header_success_iff_witness :
    (MRCLayerImporterPrivate.init.read_header_ = false ∧ exampleReply.ok = true) ∧
    (read_header mrc2000 exampleReply MRCLayerImporterPrivate.init).1 = true ∧
    (read_header mrc2000 exampleReply MRCLayerImporterPrivate.init).2.read_header_ = true ∧
    (read_header mrc2000 exampleReply MRCLayerImporterPrivate.init).2.data_type_ =
      DataType.FLOAT_E :=
  have h := read_header_success_iff mrc2000 exampleReply MRCLayerImporterPrivate.init rfl rfl
  have ht := h.1.mpr ⟨by decide, by decide, by decide, by decide⟩
  ⟨⟨rfl, rfl⟩, ht, (h.2.1 ht).1, (h.2.1 ht).2.2.2 (by decide)⟩

/-- C3: on a delivered header with a supported mode in which at least one of `mapc`,
`mapr`, `maps` is outside 1, 2, 3, `read_header` returns false and the error names the
first out-of-range selector in the order column, row, section. -/
theorem read_header_bad_axis (c : MRCConsts) (reply : ReaderReply)
    (s : MRCLayerImporterPrivate) (hs : s.read_header_ = false) (hok : reply.ok = true)
    (hm : supportedMode c reply.header.mode)
    (hbad : ¬ (validSelector reply.header.mapc ∧ validSelector reply.header.mapr ∧
      validSelector reply.header.maps)) :
    (read_header c reply s).1 = false ∧
    (read_header c reply s).2.importer_.error = some (bad_axis_message reply.header) ∧
    (read_header c reply s).2.read_header_ = false :=
  read_header_of_bad_axis c reply s hs hok hm hbad

/-- Witness for C3: `mapc = 2` is in range, `mapr = 0` and `maps = 7` are not; the row
selector is reported. -/
theorem read_header_bad_axis_witness :
    (MRCLayerImporterPrivate.init.read_header_ = false ∧ badAxisReply.ok = true ∧
      supportedMode mrc2000 badAxisReply.header.mode ∧
      ¬ (validSelector badAxisReply.header.mapc ∧ validSelector badAxisReply.header.mapr ∧
        validSelector badAxisReply.header.maps)) ∧
    (read_header mrc2000 badAxisReply MRCLayerImporterPrivate.init).1 = false ∧
    (read_header mrc2000 badAxisReply MRCLayerImporterPrivate.init).2.importer_.error =
      some "Bad mapr axis value" :=
  have h := read_header_bad_axis mrc2000 badAxisReply MRCLayerImporterPrivate.init rfl rfl
    (by decide) (by decide)
  ⟨⟨rfl, rfl, by decide, by decide⟩, h.1, h.2.1.trans (by decide)⟩

/-- C4: every failing call of `read_header` (reader failure, unsupported element code or
selector out of range) returns false with the corresponding error set and leaves
`read_header_` false; a following call on the same instance runs the parse again and
succeeds when the header it then reads is valid. -/
theorem read_header_failure_not_poisoned (c : MRCConsts) (reply : ReaderReply)
    (s : MRCLayerImporterPrivate) (hfail : (read_header c reply s).1 = false) :
    (read_header c reply s).2.read_header_ = false ∧
    (read_header c reply s).2.importer_.error = some (failure_message c reply) ∧
    (reply.ok = false ∨ ¬ supportedMode c reply.header.mode ∨
      ¬ (validSelector reply.header.mapc ∧ validSelector reply.header.mapr ∧
        validSelector reply.header.maps)) ∧
    ∀ retry : ReaderReply, retry.ok = true → supportedMode c retry.header.mode →
      (∀ r : OutputAxis, validSelector (retry.header.selector r)) →
      (read_header c retry (read_header c reply s).2).1 = true ∧
      (read_header c retry (read_header c reply s).2).2.read_header_ = true ∧
      (read_header c retry (read_header c reply s).2).2.header_ = retry.header := by
  have hs : s.read_header_ = false := by
    cases h : s.read_header_
    · rfl
    · rw [read_header_of_cached c reply s h] at hfail
      simp at hfail
  have retry_ok : ∀ s1 : MRCLayerImporterPrivate, s1.read_header_ = false →
      ∀ retry : ReaderReply, retry.ok = true → supportedMode c retry.header.mode →
      (∀ r : OutputAxis, validSelector (retry.header.selector r)) →
      (read_header c retry s1).1 = true ∧ (read_header c retry s1).2.read_header_ = true ∧
      (read_header c retry s1).2.header_ = retry.header := by
    intro s1 h1 retry rok rm rsel
    obtain ⟨dt, hdt, -⟩ := switch_mode_of_supported c _ rm
    rw [read_header_of_valid c retry s1 h1 rok dt hdt (rsel OutputAxis.x)
      (rsel OutputAxis.y) (rsel OutputAxis.z)]
    exact ⟨rfl, rfl, rfl⟩
  cases hok : reply.ok
  · have e := read_header_of_reader_failure c reply s hs hok
    have hflag : (read_header c reply s).2.read_header_ = false := by
      rw [e]; simpa [MRCLayerImporterPrivate.set_error, called_state] using hs
    refine ⟨hflag, ?_, Or.inl rfl, retry_ok _ hflag⟩
    rw [e]; simp [failure_message, hok, MRCLayerImporterPrivate.set_error]
  · by_cases hm : supportedMode c reply.header.mode
    · have hbad : ¬ (validSelector reply.header.mapc ∧ validSelector reply.header.mapr ∧
          validSelector reply.header.maps) := by
        intro hv
        have := (read_header_eq_true_iff c reply s hs hok).mpr ⟨hm, hv⟩
        rw [this] at hfail
        simp at hfail
      obtain ⟨-, herr, hflag⟩ := read_header_of_bad_axis c reply s hs hok hm hbad
      refine ⟨hflag, ?_, Or.inr (Or.inr hbad), retry_ok _ hflag⟩
      rw [herr]; simp [failure_message, hok, hm]
    · have e := read_header_of_unsupported c reply s hs hok hm
      have hflag : (read_header c reply s).2.read_header_ = false := by
        rw [e]; simpa [MRCLayerImporterPrivate.set_error, called_state] using hs
      refine ⟨hflag, ?_, Or.inr (Or.inl hm), retry_ok _ hflag⟩
      rw [e]; simp [failure_message, hok, hm, MRCLayerImporterPrivate.set_error]

/-- Witness for C4: an element code outside the supported ones fails with the format
message, and the retry on a valid header succeeds. -/
theorem read_header_failure_not_poisoned_witness :
    (read_header mrc2000 badModeReply MRCLayerImporterPrivate.init).1 = false ∧
    (read_header mrc2000 badModeReply MRCLayerImporterPrivate.init).2.read_header_ = false ∧
    (read_header mrc2000 badModeReply MRCLayerImporterPrivate.init).2.importer_.error =
      some "Unsupported MRC format." ∧
    (read_header mrc2000 exampleReply
      (read_header mrc2000 badModeReply MRCLayerImporterPrivate.init).2).1 = true :=
  have h := read_header_failure_not_poisoned mrc2000 badModeReply
    MRCLayerImporterPrivate.init (by decide)
  ⟨by decide, h.1, h.2.1.trans (by decide),
    (h.2.2.2 exampleReply rfl (by decide) (by intro r; cases r <;> decide)).1⟩

/-! ## Auxiliary lemmas on `read_data` -/

theorem read_data_of_cached (c : MRCConsts) (w : World) (s : MRCLayerImporterPrivate)
    (hs : s.read_data_ = true) : read_data c w s = (Ret.value true, s) := by
  simp [read_data, hs]

theorem read_data_of_header_failure (c : MRCConsts) (w : World)
    (s : MRCLayerImporterPrivate) (hs : s.read_data_ = false)
    (hh : (read_header c w.reader s).1 = false) :
    read_data c w s = (Ret.value false,
      (read_header c w.reader s).2.set_error "Failed to read header of MRC file.") := by
  unfold read_data
  rw [if_neg (by simp [hs])]
  rcases hr : read_header c w.reader s with ⟨b, s1⟩
  rw [hr] at hh
  simp only at hh
  subst hh
  rfl

theorem read_data_of_alloc_failure (c : MRCConsts) (w : World)
    (s : MRCLayerImporterPrivate) (hs : s.read_data_ = false)
    (hh : (read_header c w.reader s).1 = true) (ha : w.block_alloc = false) :
    read_data c w s = (Ret.value false,
      ({ (read_header c w.reader s).2 with data_block_ := none }).set_error
        "Could not allocate enough memory to read MRC file.") := by
  unfold read_data
  rw [if_neg (by simp [hs])]
  rcases hr : read_header c w.reader s with ⟨b, s1⟩
  rw [hr] at hh
  simp only at hh
  subst hh
  simp [ha]

theorem read_data_of_open_failure (c : MRCConsts) (w : World)
    (s : MRCLayerImporterPrivate) (hs : s.read_data_ = false)
    (hh : (read_header c w.reader s).1 = true) (ha : w.block_alloc = true)
    (hf : w.file = none) :
    read_data c w s = (Ret.value false,
      (allocated_state (read_header c w.reader s).2).set_error "Could not open file.") := by
  unfold read_data
  rw [if_neg (by simp [hs])]
  rcases hr : read_header c w.reader s with ⟨b, s1⟩
  rw [hr] at hh
  simp only at hh
  subst hh
  simp [ha, hf, allocated_state]

theorem read_data_of_bad_length (c : MRCConsts) (w : World)
    (s : MRCLayerImporterPrivate) (bytes : List Byte) (hs : s.read_data_ = false)
    (hh : (read_header c w.reader s).1 = true) (ha : w.block_alloc = true)
    (hf : w.file = some bytes)
    (hl : length_check_fails c (bytes.length % SIZE_T_RANGE)
      (payload_length (read_header c w.reader s).2) = true) :
    read_data c w s = (Ret.value false,
      (allocated_state (read_header c w.reader s).2).set_error
        "Incorrect length of file.") := by
  unfold read_data
  rw [if_neg (by simp [hs])]
  rcases hr : read_header c w.reader s with ⟨b, s1⟩
  rw [hr] at hh hl
  simp only at hh hl
  subst hh
  simp only [payload_length] at hl
  simp [ha, hf, hl, allocated_state]

theorem read_data_of_new_failure (c : MRCConsts) (w : World)
    (s : MRCLayerImporterPrivate) (bytes : List Byte) (hs : s.read_data_ = false)
    (hh : (read_header c w.reader s).1 = true) (ha : w.block_alloc = true)
    (hf : w.file = some bytes)
    (hl : length_check_fails c (bytes.length % SIZE_T_RANGE)
      (payload_length (read_header c w.reader s).2) = false)
    (hn : w.new_char = none) :
    read_data c w s = (Ret.exception, allocated_state (read_header c w.reader s).2) := by
  unfold read_data
  rw [if_neg (by simp [hs])]
  rcases hr : read_header c w.reader s with ⟨b, s1⟩
  rw [hr] at hh hl
  simp only at hh hl
  subst hh
  simp only [payload_length] at hl
  simp [ha, hf, hl, hn, allocated_state]

theorem read_data_of_transfer (c : MRCConsts) (w : World)
    (s : MRCLayerImporterPrivate) (bytes : List Byte) (init : Nat → Byte)
    (hs : s.read_data_ = false)
    (hh : (read_header c w.reader s).1 = true) (ha : w.block_alloc = true)
    (hf : w.file = some bytes)
    (hl : length_check_fails c (bytes.length % SIZE_T_RANGE)
      (payload_length (read_header c w.reader s).2) = false)
    (hn : w.new_char = some init) :
    read_data c w s = (Ret.value true,
      { (read_header c w.reader s).2 with
        data_block_ := some (loaded_block c (read_header c w.reader s).2 bytes init)
        read_data_ := true }) := by
  unfold read_data
  rw [if_neg (by simp [hs])]
  rcases hr : read_header c w.reader s with ⟨b, s1⟩
  rw [hr] at hh hl
  simp only at hh hl
  subst hh
  simp only [payload_length] at hl
  simp only [ha, hf, hl, hn, loaded_block, payload_length]
  simp

theorem read_header_keeps_read_data (c : MRCConsts) (reply : ReaderReply)
    (s : MRCLayerImporterPrivate) :
    (read_header c reply s).2.read_data_ = s.read_data_ := by
  cases hs : s.read_header_
  · cases hok : reply.ok
    · rw [read_header_of_reader_failure c reply s hs hok]; rfl
    · by_cases hm : supportedMode c reply.header.mode
      · obtain ⟨dt, hdt, -⟩ := switch_mode_of_supported c _ hm
        by_cases hc : validSelector reply.header.mapc
        · by_cases hr : validSelector reply.header.mapr
          · by_cases hz : validSelector reply.header.maps
            · rw [read_header_of_valid c reply s hs hok dt hdt hc hr hz]; rfl
            · rw [read_header_of_bad_maps c reply s hs hok dt hdt hc hr hz]; rfl
          · rw [read_header_of_bad_mapr c reply s hs hok dt hdt hc hr]; rfl
        · rw [read_header_of_bad_mapc c reply s hs hok dt hdt hc]; rfl
      · rw [read_header_of_unsupported c reply s hs hok hm]; rfl
  · rw [read_header_of_cached c reply s hs]

theorem read_header_flag_of_true (c : MRCConsts) (reply : ReaderReply)
    (s : MRCLayerImporterPrivate) (h : (read_header c reply s).1 = true) :
    (read_header c reply s).2.read_header_ = true := by
  cases hs : s.read_header_
  · cases hok : reply.ok
    · rw [read_header_of_reader_failure c reply s hs hok] at h
      simp at h
    · obtain ⟨hm, hc, hr, hz⟩ := (read_header_eq_true_iff c reply s hs hok).mp h
      obtain ⟨dt, hdt, -⟩ := switch_mode_of_supported c _ hm
      rw [read_header_of_valid c reply s hs hok dt hdt hc hr hz]; rfl
  · rw [read_header_of_cached c reply s hs]
    exact hs

theorem read_data_inversion (c : MRCConsts) (w : World) (s : MRCLayerImporterPrivate)
    (hs : s.read_data_ = false) (ht : (read_data c w s).1 = Ret.value true) :
    ∃ bytes init, (read_header c w.reader s).1 = true ∧ w.block_alloc = true ∧
      w.file = some bytes ∧
      length_check_fails c (bytes.length % SIZE_T_RANGE)
        (payload_length (read_header c w.reader s).2) = false ∧
      w.new_char = some init ∧
      read_data c w s = (Ret.value true,
        { (read_header c w.reader s).2 with
          data_block_ := some (loaded_block c (read_header c w.reader s).2 bytes init)
          read_data_ := true }) := by
  cases hh : (read_header c w.reader s).1
  · rw [read_data_of_header_failure c w s hs hh] at ht
    simp at ht
  · cases ha : w.block_alloc
    · rw [read_data_of_alloc_failure c w s hs hh ha] at ht
      simp at ht
    · cases hf : w.file with
      | none =>
        rw [read_data_of_open_failure c w s hs hh ha hf] at ht
        simp at ht
      | some bytes =>
        cases hl : length_check_fails c (bytes.length % SIZE_T_RANGE)
            (payload_length (read_header c w.reader s).2)
        · cases hn : w.new_char with
          | none =>
            rw [read_data_of_new_failure c w s bytes hs hh ha hf hl hn] at ht
            simp at ht
          | some init =>
            exact ⟨bytes, init, rfl, rfl, rfl, hl, rfl,
              read_data_of_transfer c w s bytes init hs hh ha hf hl hn⟩
        · rw [read_data_of_bad_length c w s bytes hs hh ha hf hl] at ht
          simp at ht

theorem read_data_flag_of_true (c : MRCConsts) (w : World) (s : MRCLayerImporterPrivate)
    (ht : (read_data c w s).1 = Ret.value true) : (read_data c w s).2.read_data_ = true := by
  cases hs : s.read_data_
  · obtain ⟨bytes, init, -, -, -, -, -, e⟩ := read_data_inversion c w s hs ht
    rw [e]
  · rw [read_data_of_cached c w s hs]
    exact hs

theorem read_data_failure (c : MRCConsts) (w : World) (s : MRCLayerImporterPrivate)
    (hf : (read_data c w s).1 = Ret.value false) :
    (read_data c w s).2.read_data_ = false ∧
    ∃ msg, (read_data c w s).2.importer_.error = some msg := by
  have hs : s.read_data_ = false := by
    cases h : s.read_data_
    · rfl
    · rw [read_data_of_cached c w s h] at hf
      simp at hf
  have hk := read_header_keeps_read_data c w.reader s
  rw [hs] at hk
  cases hh : (read_header c w.reader s).1
  · rw [read_data_of_header_failure c w s hs hh]
    exact ⟨by simpa [MRCLayerImporterPrivate.set_error] using hk,
      _, rfl⟩
  · cases ha : w.block_alloc
    · rw [read_data_of_alloc_failure c w s hs hh ha]
      exact ⟨by simpa [MRCLayerImporterPrivate.set_error] using hk,
        _, rfl⟩
    · cases hfile : w.file with
      | none =>
        rw [read_data_of_open_failure c w s hs hh ha hfile]
        exact ⟨by simpa [MRCLayerImporterPrivate.set_error, allocated_state] using hk,
          _, rfl⟩
      | some bytes =>
        cases hl : length_check_fails c (bytes.length % SIZE_T_RANGE)
            (payload_length (read_header c w.reader s).2)
        · cases hn : w.new_char with
          | none =>
            rw [read_data_of_new_failure c w s bytes hs hh ha hfile hl hn] at hf
            simp at hf
          | some init =>
            rw [read_data_of_transfer c w s bytes init hs hh ha hfile hl hn] at hf
            simp at hf
        · rw [read_data_of_bad_length c w s bytes hs hh ha hfile hl]
          exact ⟨by simpa [MRCLayerImporterPrivate.set_error, allocated_state] using hk,
            _, rfl⟩

/-! ## Cached re-entry -/

/-- C5: cached re-entry is a no-op.  When `read_header_` is true, `read_header` returns
true whatever the reader would answer and leaves every field unchanged; when `read_data_`
is true, `read_data` returns true whatever the environment holds and leaves every field
unchanged.  Hence a second header read after a successful one, and a second data read
after a successful one, return true with the state (geometry, data type, data block) of
the first. -/
theorem cached_reentry_noop (c : MRCConsts) (s : MRCLayerImporterPrivate) :
    (s.read_header_ = true → ∀ reply : ReaderReply, read_header c reply s = (true, s)) ∧
    (s.read_data_ = true → ∀ w : World, read_data c w s = (Ret.value true, s)) ∧
    (∀ first second : ReaderReply, (read_header c first s).1 = true →
      read_header c second (read_header c first s).2 = (true, (read_header c first s).2)) ∧
    (∀ first second : World, (read_data c first s).1 = Ret.value true →
      read_data c second (read_data c first s).2 =
        (Ret.value true, (read_data c first s).2)) := by
  refine ⟨fun h reply => read_header_of_cached c reply s h,
    fun h w => read_data_of_cached c w s h, ?_, ?_⟩
  · intro first second h
    exact read_header_of_cached c second _ (read_header_flag_of_true c first s h)
  · intro first second h
    exact read_data_of_cached c second _ (read_data_flag_of_true c first s h)

/-- Witness for C5: an instance that has read header and data answers both calls from
its cache, whatever the reader or the file would now deliver. -/
theorem cached_reentry_noop_witness :
    ((read_data mrc2000 (unitWorld true) MRCLayerImporterPrivate.init).2.read_header_ = true ∧
      (read_data mrc2000 (unitWorld true) MRCLayerImporterPrivate.init).2.read_data_ = true) ∧
    read_header mrc2000 badModeReply
        (read_data mrc2000 (unitWorld true) MRCLayerImporterPrivate.init).2 =
      (true, (read_data mrc2000 (unitWorld true) MRCLayerImporterPrivate.init).2) ∧
    read_data mrc2000 truncatedWorld
        (read_data mrc2000 (unitWorld true) MRCLayerImporterPrivate.init).2 =
      (Ret.value true, (read_data mrc2000 (unitWorld true) MRCLayerImporterPrivate.init).2) :=
  have h := cached_reentry_noop mrc2000
    (read_data mrc2000 (unitWorld true) MRCLayerImporterPrivate.init).2
  ⟨⟨by decide, by decide⟩, h.1 (by decide) badModeReply, h.2.1 (by decide) truncatedWorld⟩

/-! ## The length check -/

/-- C6 (the code at the failing input): the header is parsed with `dims = [4, 4, 4]` and
float32 elements, so 256 payload bytes are expected, and the file is 100 bytes long, less
than `MRC_HEADER_LENGTH + 256`; the length test does not fire, `read_data` returns true
and sets `read_data_`, and `get_file_data` returns true and hands a data block to the
caller. -/
theorem read_data_accepts_file_shorter_than_header :
    expected_bytes parsedCube = 256 ∧
    truncatedWorld.file.map List.length = some 100 ∧
    100 < mrc2000.MRC_HEADER_LENGTH + expected_bytes parsedCube ∧
    length_check_fails mrc2000 100 256 = false ∧
    (read_data mrc2000 truncatedWorld parsedCube).1 = Ret.value true ∧
    (read_data mrc2000 truncatedWorld parsedCube).2.read_data_ = true ∧
    (read_data mrc2000 truncatedWorld parsedCube).2.importer_.error = none ∧
    (get_file_data mrc2000 truncatedWorld "volume" parsedCube none).1 = true ∧
    ((get_file_data mrc2000 truncatedWorld "volume" parsedCube none).2.2.bind
      (fun d => d.data_block)).isSome = true := by
  decide

/-! ## Auxiliary lemmas on `size_t` arithmetic and on byte swapping -/

theorem toSizeT_pos_iff (x : Int) (h : isInt32 x) : 0 < toSizeT x ↔ x ≠ 0 := by
  unfold toSizeT SIZE_T_RANGE
  unfold isInt32 at h
  have e : ((2 ^ 64 : Nat) : Int) = 18446744073709551616 := by norm_num
  rw [e]
  omega

theorem subSizeT_of_lt (a b : Nat) (hab : a < b) (hb : b < SIZE_T_RANGE) :
    subSizeT a b = SIZE_T_RANGE + a - b := by
  unfold subSizeT
  unfold SIZE_T_RANGE at *
  omega

theorem subSizeT_of_le (a b : Nat) (hab : b ≤ a) (ha : a < SIZE_T_RANGE) :
    subSizeT a b = a - b := by
  unfold subSizeT
  unfold SIZE_T_RANGE at *
  omega

theorem payload_length_eq (s : MRCLayerImporterPrivate) (h : expected_bytes s < SIZE_T_RANGE) :
    payload_length s = expected_bytes s := by
  unfold payload_length expected_bytes DataBlock.get_size StdDataBlock.New mulSizeT at *
  simp only [Nat.mod_mul_mod]
  exact Nat.mod_eq_of_lt h

theorem length_check_fails_iff (c : MRCConsts) (file_size length : Nat)
    (hlo : c.MRC_HEADER_LENGTH ≤ file_size) (hhi : file_size < SIZE_T_RANGE) :
    length_check_fails c (file_size % SIZE_T_RANGE) length = true ↔
      file_size < c.MRC_HEADER_LENGTH + length := by
  have hc := c.header_length_lt
  rw [Nat.mod_eq_of_lt hhi]
  unfold length_check_fails
  rw [subSizeT_of_le _ _ hlo hhi, decide_eq_true_iff]
  omega

theorem read_header_keeps_importer (c : MRCConsts) (reply : ReaderReply)
    (s : MRCLayerImporterPrivate) (h : (read_header c reply s).1 = true) :
    (read_header c reply s).2.importer_ = s.importer_ := by
  cases hs : s.read_header_
  · cases hok : reply.ok
    · rw [read_header_of_reader_failure c reply s hs hok] at h
      simp at h
    · obtain ⟨hm, hc, hr, hz⟩ := (read_header_eq_true_iff c reply s hs hok).mp h
      obtain ⟨dt, hdt, -⟩ := switch_mode_of_supported c _ hm
      rw [read_header_of_valid c reply s hs hok dt hdt hc hr hz]; rfl
  · rw [read_header_of_cached c reply s hs]

theorem filled_buffer_length (init : Nat → Byte) (length : Nat) (got : List Byte)
    (h : got.length ≤ length) : (filled_buffer init length got).length = length := by
  unfold filled_buffer
  simp only [List.length_append, List.length_map, List.length_range]
  omega

/-- C7 (counterexample): a delivered float32 header with `mapc = 2` and `ny = 0` is
accepted, and the first dimension of the grid transform is 0, not strictly positive. -/
theorem read_header_accepts_zero_extent :
    (read_header mrc2000 zeroExtentReply MRCLayerImporterPrivate.init).1 = true ∧
    (read_header mrc2000 zeroExtentReply
      MRCLayerImporterPrivate.init).2.grid_transform_.dims OutputAxis.x = 0 ∧
    ¬ (∀ r : OutputAxis, 0 < (read_header mrc2000 zeroExtentReply
      MRCLayerImporterPrivate.init).2.grid_transform_.dims r) := by
  refine ⟨by decide, by decide, ?_⟩
  intro h
  exact absurd (h OutputAxis.x) (by decide)

/-- C7 (amended): after a successful `read_header` on a delivered header of C++ `int`
fields, each dimension of the grid transform is the selected native extent converted to
`size_t`, and it is strictly positive exactly when that extent is not 0 (a negative
extent wraps to a positive value). -/
theorem read_header_dims_positive_iff (c : MRCConsts) (reply : ReaderReply)
    (s : MRCLayerImporterPrivate) (hs : s.read_header_ = false) (hok : reply.ok = true)
    (hwf : reply.header.wf) (ht : (read_header c reply s).1 = true) (r : OutputAxis) :
    (read_header c reply s).2.grid_transform_.dims r =
      toSizeT (reply.header.native_extent (reply.header.selector r)) ∧
    (0 < (read_header c reply s).2.grid_transform_.dims r ↔
      reply.header.native_extent (reply.header.selector r) ≠ 0) := by
  obtain ⟨hm, hc, hr, hz⟩ := (read_header_eq_true_iff c reply s hs hok).mp ht
  obtain ⟨dt, hdt, -⟩ := switch_mode_of_supported c _ hm
  have hext : ∀ sel : Int, isInt32 (reply.header.native_extent sel) := by
    intro sel
    obtain ⟨-, hx, hy, hz, -⟩ := hwf
    unfold MRCHeader.native_extent
    split
    · exact hx
    · split
      · exact hy
      · exact hz
  have hdim : (read_header c reply s).2.grid_transform_.dims r =
      toSizeT (reply.header.native_extent (reply.header.selector r)) := by
    rw [read_header_of_valid c reply s hs hok dt hdt hc hr hz]
    cases r <;> rfl
  exact ⟨hdim, by rw [hdim]; exact toSizeT_pos_iff _ (hext _)⟩

/-- Witness for C7 (amended): with `nx = -5`, `ny = 10`, `nz = 3` every extent is nonzero
and every dimension is positive; the row dimension is `2 ^ 64 - 5`. -/
theorem read_header_dims_positive_iff_witness :
    (MRCLayerImporterPrivate.init.read_header_ = false ∧ negativeExtentReply.ok = true ∧
      negativeExtentReply.header.wf ∧
      (read_header mrc2000 negativeExtentReply MRCLayerImporterPrivate.init).1 = true) ∧
    (read_header mrc2000 negativeExtentReply
      MRCLayerImporterPrivate.init).2.grid_transform_.dims OutputAxis.y =
        18446744073709551611 ∧
    0 < (read_header mrc2000 negativeExtentReply
      MRCLayerImporterPrivate.init).2.grid_transform_.dims OutputAxis.y :=
  have h := read_header_dims_positive_iff mrc2000 negativeExtentReply
    MRCLayerImporterPrivate.init rfl rfl (by decide) (by decide) OutputAxis.y
  ⟨⟨rfl, rfl, by decide, by decide⟩, h.1.trans (by decide), h.2.mpr (by decide)⟩

/-! ## The payload transfer -/

/-- C10: in `size_t` arithmetic, when `file_size < MRC_HEADER_LENGTH` the difference
`file_size - MRC_HEADER_LENGTH` wraps to `2 ^ 64 + file_size - MRC_HEADER_LENGTH`, which is
at least `2 ^ 64 - MRC_HEADER_LENGTH`; for every `length` not exceeding the wrapped value
the test `file_size - MRC_HEADER_LENGTH < length` is false, and `read_data` does not
report "Incorrect length of file." but goes on to the read: it does not return false, it
sets no error, and once the buffer is allocated it returns true with `read_data_` set. -/
theorem length_check_underflow (c : MRCConsts) (file_size : Nat)
    (hshort : file_size < c.MRC_HEADER_LENGTH) :
    subSizeT file_size c.MRC_HEADER_LENGTH = 2 ^ 64 + file_size - c.MRC_HEADER_LENGTH ∧
    2 ^ 64 - c.MRC_HEADER_LENGTH ≤ subSizeT file_size c.MRC_HEADER_LENGTH ∧
    (∀ length, length ≤ subSizeT file_size c.MRC_HEADER_LENGTH →
      length_check_fails c file_size length = false) ∧
    (∀ (w : World) (s : MRCLayerImporterPrivate) (bytes : List Byte),
      s.read_data_ = false → (read_header c w.reader s).1 = true → w.block_alloc = true →
      w.file = some bytes → bytes.length = file_size →
      payload_length (read_header c w.reader s).2 ≤
        subSizeT file_size c.MRC_HEADER_LENGTH →
      (read_data c w s).1 ≠ Ret.value false ∧
      (read_data c w s).2.importer_.error = s.importer_.error ∧
      (∀ init, w.new_char = some init →
        (read_data c w s).1 = Ret.value true ∧
        (read_data c w s).2.read_data_ = true ∧
        (read_data c w s).2.data_block_ =
          some (loaded_block c (read_header c w.reader s).2 bytes init))) := by
  have hc := c.header_length_lt
  have hsub := subSizeT_of_lt file_size c.MRC_HEADER_LENGTH hshort hc
  have hR : SIZE_T_RANGE = 2 ^ 64 := rfl
  have hcheck : ∀ length, length ≤ subSizeT file_size c.MRC_HEADER_LENGTH →
      length_check_fails c file_size length = false := by
    intro length hle
    unfold length_check_fails
    rw [decide_eq_false_iff_not]
    omega
  refine ⟨by rw [hsub, hR], by rw [hsub, hR]; omega, hcheck, ?_⟩
  intro w s bytes hs hh ha hf hlen hle
  have hmod : bytes.length % SIZE_T_RANGE = file_size := by
    rw [hlen]
    exact Nat.mod_eq_of_lt (by omega)
  have hl : length_check_fails c (bytes.length % SIZE_T_RANGE)
      (payload_length (read_header c w.reader s).2) = false := by
    rw [hmod]
    exact hcheck _ hle
  have himp := read_header_keeps_importer c w.reader s hh
  cases hn : w.new_char with
  | none =>
    rw [read_data_of_new_failure c w s bytes hs hh ha hf hl hn]
    refine ⟨by simp, ?_, ?_⟩
    · simp only [allocated_state]
      rw [himp]
    · intro init hinit
      cases hinit
  | some init0 =>
    rw [read_data_of_transfer c w s bytes init0 hs hh ha hf hl hn]
    refine ⟨by simp, ?_, ?_⟩
    · simp only
      rw [himp]
    · intro init hinit
      cases hinit
      exact ⟨rfl, rfl, rfl⟩

/-- Witness for C10: a file of 100 bytes and the 256 byte payload of the `4 x 4 x 4`
float32 header. -/
theorem length_check_underflow_witness :
    (100 < mrc2000.MRC_HEADER_LENGTH) ∧
    subSizeT 100 mrc2000.MRC_HEADER_LENGTH = 2 ^ 64 + 100 - 1024 ∧
    length_check_fails mrc2000 100 256 = false ∧
    (read_data mrc2000 truncatedWorld MRCLayerImporterPrivate.init).1 ≠ Ret.value false :=
  have h := length_check_underflow mrc2000 100 (by decide)
  ⟨by decide, h.1, h.2.2.1 256 (by decide),
    (h.2.2.2 truncatedWorld MRCLayerImporterPrivate.init (List.replicate 100 0) rfl
      (by decide) rfl rfl (by decide) (by decide)).1⟩

/-! ## Auxiliary lemmas on the chunked transfer -/

theorem take_take_length (l : List Byte) (m : Nat) : l.take (l.take m).length = l.take m := by
  rw [List.length_take, List.take_eq_take]
  simp

theorem toDWORD_CHUNK : toDWORD CHUNK = CHUNK := by decide

theorem toDWORD_le (n : Nat) : toDWORD n ≤ n := Nat.mod_le _ _

theorem ReadFile_spec (file : List Byte) (length pos g req : Nat) (st : ChunkedRead)
    (hinv : st.inv file length pos) (hreq : req ≤ st.read_length) (hchunk : req ≤ CHUNK) :
    (ReadFile file g req st).1 ≤ req ∧
    (ReadFile file g req st).1 = min (min req g) (file.length - (pos + st.data_ptr)) ∧
    (ReadFile file g req st).2.read_length = st.read_length ∧
    (ReadFile file g req st).2.data_ptr = st.data_ptr ∧
    (ReadFile file g req st).2.file_pointer = pos + (st.data_ptr + (ReadFile file g req st).1) ∧
    (ReadFile file g req st).2.data.length = length ∧
    (ReadFile file g req st).2.transferred = st.data_ptr + (ReadFile file g req st).1 ∧
    st.data_ptr + (ReadFile file g req st).1 ≤ file.length - pos ∧
    (ReadFile file g req st).2.data.take (st.data_ptr + (ReadFile file g req st).1) =
      (file.drop pos).take (st.data_ptr + (ReadFile file g req st).1) ∧
    (ReadFile file g req st).2.calls = st.calls ++ [(req, (ReadFile file g req st).1)] ∧
    (∀ c ∈ (ReadFile file g req st).2.calls, c.1 ≤ CHUNK ∧ c.2 ≤ c.1) := by
  obtain ⟨hfp, hsum, hdl, htr, hle, hpre, hcalls⟩ := hinv
  have hn : (ReadFile file g req st).1 =
      min (min req g) (file.length - (pos + st.data_ptr)) := by
    simp only [ReadFile, List.length_take, List.length_drop, hfp]
  have hn1 : (ReadFile file g req st).1 ≤ req := by rw [hn]; omega
  have hgot : (ReadFile file g req st).1 =
      ((file.drop (pos + st.data_ptr)).take (min req g)).length := by
    simp only [ReadFile, hfp]
  refine ⟨hn1, hn, rfl, rfl, ?_, ?_, ?_, ?_, ?_, rfl, ?_⟩
  · simp only [ReadFile, hfp]; omega
  · simp only [ReadFile, List.length_append, List.length_take, List.length_drop, hfp, hdl]
    omega
  · simp only [ChunkedRead.transferred] at htr ⊢
    simp only [ReadFile, List.map_append, List.sum_append, htr, List.map_cons, List.map_nil,
      List.sum_cons, List.sum_nil, Nat.add_zero]
  · rw [hn]; omega
  · have hlen1 : (st.data.take st.data_ptr).length = st.data_ptr := by
      rw [List.length_take, hdl]; omega
    have hdata : (ReadFile file g req st).2.data =
        (st.data.take st.data_ptr ++ (file.drop (pos + st.data_ptr)).take (min req g)) ++
          st.data.drop (st.data_ptr + (ReadFile file g req st).1) := by
      simp only [ReadFile, hfp]
    rw [hdata, List.take_append_of_le_length (by
      rw [List.length_append, hlen1, ← hgot])]
    rw [List.take_of_length_le (by rw [List.length_append, hlen1, ← hgot])]
    rw [List.take_add, hpre, List.drop_drop, hgot,
      take_take_length]
  · intro c hc
    have hc1 : c ∈ st.calls ++ [(req, (ReadFile file g req st).1)] := hc
    rcases List.mem_append.mp hc1 with h | h
    · exact hcalls c h
    · rw [List.mem_singleton] at h
      subst h
      exact ⟨hchunk, hn1⟩

theorem chunk_loop_body_spec (file : List Byte) (grant : Nat → Nat) (length pos : Nat)
    (st : ChunkedRead) (hinv : st.inv file length pos) (hR : length < SIZE_T_RANGE)
    (hgt : CHUNK < st.read_length) :
    (chunk_loop_body file grant st).inv file length pos ∧
    (chunk_loop_body file grant st).read_length =
      st.read_length - min (min CHUNK (grant st.calls.length))
        (file.length - (pos + st.data_ptr)) ∧
    (chunk_loop_body file grant st).data_ptr =
      st.data_ptr + min (min CHUNK (grant st.calls.length))
        (file.length - (pos + st.data_ptr)) ∧
    (chunk_loop_body file grant st).calls =
      st.calls ++ [(CHUNK, min (min CHUNK (grant st.calls.length))
        (file.length - (pos + st.data_ptr)))] := by
  have hspec := ReadFile_spec file length pos (grant st.calls.length) CHUNK st hinv
    (Nat.le_of_lt hgt) (Nat.le_refl _)
  obtain ⟨h1, h2, h3, h4, h5, h6, h7, h8, h9, h10, h11⟩ := hspec
  obtain ⟨hfp, hsum, hdl, htr, hle, hpre, hcalls⟩ := hinv
  have hsub : subSizeT st.read_length (ReadFile file (grant st.calls.length) CHUNK st).1 =
      st.read_length - (ReadFile file (grant st.calls.length) CHUNK st).1 :=
    subSizeT_of_le _ _ (by omega) (by omega)
  unfold chunk_loop_body
  rw [toDWORD_CHUNK]
  simp only [h3, h4, hsub]
  refine ⟨⟨?_, ?_, ?_, ?_, ?_, ?_, ?_⟩, ?_, ?_, ?_⟩
  · exact h5
  · show st.data_ptr + (ReadFile file (grant st.calls.length) CHUNK st).1 +
      (st.read_length - (ReadFile file (grant st.calls.length) CHUNK st).1) = length
    omega
  · exact h6
  · exact h7
  · exact h8
  · exact h9
  · exact h11
  · rw [h2]
  · rw [h2]
  · rw [h10, h2]

theorem chunk_loop_exit (file : List Byte) (grant : Nat → Nat) (length pos : Nat)
    (hR : length < SIZE_T_RANGE) (fuel : Nat) :
    ∀ st r : ChunkedRead, st.inv file length pos → chunk_loop file grant fuel st = some r →
      r.inv file length pos ∧ r.read_length ≤ CHUNK := by
  induction fuel with
  | zero =>
    intro st r hinv h
    unfold chunk_loop at h
    split at h
    · cases h
    · cases h
      exact ⟨hinv, by omega⟩
  | succ fuel ih =>
    intro st r hinv h
    unfold chunk_loop at h
    split at h
    · rename_i hgt
      exact ih _ r (chunk_loop_body_spec file grant length pos st hinv hR hgt).1 h
    · cases h
      exact ⟨hinv, by omega⟩

theorem chunk_loop_terminates (file : List Byte) (grant : Nat → Nat) (length pos : Nat)
    (hR : length < SIZE_T_RANGE) (hfile : pos + length ≤ file.length)
    (hprogress : ∀ i, 0 < grant i) (fuel : Nat) :
    ∀ st : ChunkedRead, st.inv file length pos → st.read_length ≤ fuel + CHUNK →
      ∃ r, chunk_loop file grant fuel st = some r := by
  induction fuel with
  | zero =>
    intro st _ hle
    exact ⟨st, by unfold chunk_loop; rw [if_neg (by omega)]⟩
  | succ fuel ih =>
    intro st hinv hle
    by_cases hgt : CHUNK < st.read_length
    · obtain ⟨hinv1, hrl, -, -⟩ := chunk_loop_body_spec file grant length pos st hinv hR hgt
      have hg := hprogress st.calls.length
      have hchunk : 0 < CHUNK := by decide
      have hsum := hinv.2.1
      obtain ⟨r, hr⟩ := ih _ hinv1 (by rw [hrl]; omega)
      exact ⟨r, by unfold chunk_loop; rw [if_pos hgt]; exact hr⟩
    · exact ⟨st, by unfold chunk_loop; rw [if_neg hgt]⟩

theorem chunk_loop_full (file : List Byte) (grant : Nat → Nat) (length pos : Nat)
    (hR : length < SIZE_T_RANGE) (hfile : pos + length ≤ file.length)
    (hfull : ∀ i, CHUNK ≤ grant i) (fuel : Nat) :
    ∀ st r : ChunkedRead, st.inv file length pos → (∀ c ∈ st.calls, c.2 = c.1) →
      chunk_loop file grant fuel st = some r → ∀ c ∈ r.calls, c.2 = c.1 := by
  induction fuel with
  | zero =>
    intro st r _ hall h
    unfold chunk_loop at h
    split at h
    · cases h
    · cases h
      exact hall
  | succ fuel ih =>
    intro st r hinv hall h
    unfold chunk_loop at h
    split at h
    · rename_i hgt
      obtain ⟨hinv1, -, -, hcalls⟩ := chunk_loop_body_spec file grant length pos st hinv hR hgt
      refine ih _ r hinv1 ?_ h
      intro c hc
      rw [hcalls] at hc
      rcases List.mem_append.mp hc with hc1 | hc1
      · exact hall c hc1
      · rw [List.mem_singleton] at hc1
        subst hc1
        have hg := hfull st.calls.length
        have hsum := hinv.2.1
        show min (min CHUNK (grant st.calls.length)) (file.length - (pos + st.data_ptr)) = CHUNK
        omega
    · cases h
      exact hall

theorem chunk_loop_stuck (file : List Byte) (grant : Nat → Nat) (fuel : Nat) :
    ∀ st : ChunkedRead, CHUNK < st.read_length → st.read_length < SIZE_T_RANGE →
      file.length ≤ st.file_pointer → chunk_loop file grant fuel st = none := by
  induction fuel with
  | zero =>
    intro st hgt _ _
    unfold chunk_loop
    rw [if_pos hgt]
  | succ fuel ih =>
    intro st hgt hR heof
    unfold chunk_loop
    rw [if_pos hgt]
    have hzero : (ReadFile file (grant st.calls.length) (toDWORD CHUNK) st).1 = 0 := by
      show ((file.drop st.file_pointer).take
        (min (toDWORD CHUNK) (grant st.calls.length))).length = 0
      rw [List.length_take, List.length_drop]
      omega
    have hsub : subSizeT st.read_length 0 = st.read_length :=
      (subSizeT_of_le _ _ (Nat.zero_le _) hR).trans (Nat.sub_zero _)
    have hrl : (chunk_loop_body file grant st).read_length = st.read_length := by
      show subSizeT st.read_length
        (ReadFile file (grant st.calls.length) (toDWORD CHUNK) st).1 = st.read_length
      rw [hzero]
      exact hsub
    have hfp : (chunk_loop_body file grant st).file_pointer = st.file_pointer := by
      show st.file_pointer +
        (ReadFile file (grant st.calls.length) (toDWORD CHUNK) st).1 = st.file_pointer
      rw [hzero]
      rfl
    apply ih
    · rw [hrl]; exact hgt
    · rw [hrl]; exact hR
    · rw [hfp]; exact heof

theorem initial_inv (file data : List Byte) (length pos : Nat) (hdata : data.length = length) :
    (⟨data, 0, length, pos, []⟩ : ChunkedRead).inv file length pos :=
  ⟨rfl, Nat.zero_add _, hdata, rfl, Nat.zero_le _, rfl, fun _ h => absurd h (List.not_mem_nil _)⟩

theorem win32_transfer_of_loop (file : List Byte) (grant : Nat → Nat) (fuel : Nat)
    (data : List Byte) (length pos : Nat) (r : ChunkedRead)
    (h : chunk_loop file grant fuel ⟨data, 0, length, pos, []⟩ = some r) :
    win32_transfer file grant fuel data length pos =
      some (ReadFile file (grant r.calls.length) (toDWORD r.read_length) r).2 := by
  unfold win32_transfer
  rw [h]

theorem win32_transfer_inversion (file : List Byte) (grant : Nat → Nat) (fuel : Nat)
    (data : List Byte) (length pos : Nat) (st : ChunkedRead)
    (h : win32_transfer file grant fuel data length pos = some st) :
    ∃ r, chunk_loop file grant fuel ⟨data, 0, length, pos, []⟩ = some r ∧
      st = (ReadFile file (grant r.calls.length) (toDWORD r.read_length) r).2 := by
  unfold win32_transfer at h
  cases hr : chunk_loop file grant fuel ⟨data, 0, length, pos, []⟩ with
  | none => rw [hr] at h; cases h
  | some r =>
    rw [hr] at h
    exact ⟨r, rfl, (Option.some.inj h).symm⟩

/-! ## The chunked transfer -/

/-- C11 (counterexample): with `length = 2 ^ 30 + 1` and the file handle at position 1024
of a file of 100 bytes, every `ReadFile` call returns 0 bytes (end of file), the condition
`read_length > chunk` stays true, and the loop does not come to an end within any number
of iterations. -/
theorem chunk_loop_spins_at_end_of_file :
    CHUNK < 2 ^ 30 + 1 ∧
    ¬ ∃ fuel, (win32_transfer (List.replicate 100 0) (fun _ => CHUNK) fuel
      (List.replicate (2 ^ 30 + 1) 0) (2 ^ 30 + 1) 1024).isSome = true := by
  refine ⟨by decide, ?_⟩
  rintro ⟨fuel, h⟩
  have hnone : win32_transfer (List.replicate 100 0) (fun _ => CHUNK) fuel
      (List.replicate (2 ^ 30 + 1) 0) (2 ^ 30 + 1) 1024 = none := by
    unfold win32_transfer
    rw [chunk_loop_stuck (List.replicate 100 0) (fun _ => CHUNK) fuel
      ⟨List.replicate (2 ^ 30 + 1) 0, 0, 2 ^ 30 + 1, 1024, []⟩
      (show CHUNK < 2 ^ 30 + 1 by decide)
      (show 2 ^ 30 + 1 < SIZE_T_RANGE by decide)
      (show (List.replicate 100 (0 : Byte)).length ≤ 1024 by
        rw [List.length_replicate]; decide)]
  rw [hnone] at h
  exact Bool.noConfusion h

/-- C11 (amended): for a `size_t` length and a buffer of that length, (1) in every run of
the chunked transfer that comes to an end no `ReadFile` call requests more than `2 ^ 30`
bytes or returns more than it requested, and the bytes transferred over all calls lie
contiguously at the start of the buffer in file order; (2) when the file holds the
payload and every call delivers at least one byte, the loop ends after at most `length`
iterations; (3) when moreover every call returns the full count requested, the bytes
transferred sum to exactly `length` and the buffer is the file from the start position
on. -/
theorem chunked_transfer (file : List Byte) (grant : Nat → Nat) (data : List Byte)
    (length pos : Nat) (hR : length < SIZE_T_RANGE) (hdata : data.length = length) :
    (∀ fuel st, win32_transfer file grant fuel data length pos = some st →
      (∀ c ∈ st.calls, c.1 ≤ CHUNK ∧ c.2 ≤ c.1) ∧
      st.transferred ≤ length ∧ st.data.length = length ∧
      st.data.take st.transferred = (file.drop pos).take st.transferred) ∧
    (pos + length ≤ file.length → (∀ i, 0 < grant i) → ∀ fuel, length ≤ fuel →
      ∃ st, win32_transfer file grant fuel data length pos = some st) ∧
    (pos + length ≤ file.length → (∀ i, CHUNK ≤ grant i) → ∀ fuel, length ≤ fuel →
      ∃ st, win32_transfer file grant fuel data length pos = some st ∧
        (∀ c ∈ st.calls, c.2 = c.1) ∧ st.transferred = length ∧
        st.data = (file.drop pos).take length) := by
  have h0 := initial_inv file data length pos hdata
  have hchunk : 0 < CHUNK := by decide
  have hterm : pos + length ≤ file.length → (∀ i, 0 < grant i) → ∀ fuel, length ≤ fuel →
      ∃ r, chunk_loop file grant fuel ⟨data, 0, length, pos, []⟩ = some r := by
    intro hfile hprogress fuel hfuel
    exact chunk_loop_terminates file grant length pos hR hfile hprogress fuel _ h0
      (show length ≤ fuel + CHUNK by omega)
  refine ⟨?_, ?_, ?_⟩
  · intro fuel st h
    obtain ⟨r, hr, hst⟩ := win32_transfer_inversion file grant fuel data length pos st h
    obtain ⟨hinv, hle⟩ := chunk_loop_exit file grant length pos hR fuel _ r h0 hr
    have hreq : toDWORD r.read_length ≤ r.read_length := toDWORD_le _
    obtain ⟨h1, -, -, -, -, h6, h7, -, h9, -, h11⟩ := ReadFile_spec file length pos
      (grant r.calls.length) (toDWORD r.read_length) r hinv hreq (Nat.le_trans hreq hle)
    have hsum := hinv.2.1
    subst hst
    refine ⟨h11, ?_, h6, ?_⟩
    · rw [h7]; omega
    · rw [h7]; exact h9
  · intro hfile hprogress fuel hfuel
    obtain ⟨r, hr⟩ := hterm hfile hprogress fuel hfuel
    exact ⟨_, win32_transfer_of_loop file grant fuel data length pos r hr⟩
  · intro hfile hfull fuel hfuel
    have hprogress : ∀ i, 0 < grant i := fun i => Nat.lt_of_lt_of_le hchunk (hfull i)
    obtain ⟨r, hr⟩ := hterm hfile hprogress fuel hfuel
    obtain ⟨hinv, hle⟩ := chunk_loop_exit file grant length pos hR fuel _ r h0 hr
    have hall := chunk_loop_full file grant length pos hR hfile hfull fuel _ r h0
      (fun _ h => absurd h (List.not_mem_nil _)) hr
    have hreq : toDWORD r.read_length = r.read_length :=
      Nat.mod_eq_of_lt (Nat.lt_of_le_of_lt hle (by decide))
    obtain ⟨-, h2, -, -, -, h6, h7, -, h9, h10, -⟩ := ReadFile_spec file length pos
      (grant r.calls.length) (toDWORD r.read_length) r hinv (Nat.le_of_eq hreq)
      (by rw [hreq]; exact hle)
    have hsum := hinv.2.1
    have hg := hfull r.calls.length
    have hn : (ReadFile file (grant r.calls.length) (toDWORD r.read_length) r).1 =
        r.read_length := by
      rw [h2, hreq]; omega
    refine ⟨_, win32_transfer_of_loop file grant fuel data length pos r hr, ?_, ?_, ?_⟩
    · intro c hc
      rw [h10] at hc
      rcases List.mem_append.mp hc with hc1 | hc1
      · exact hall c hc1
      · rw [List.mem_singleton] at hc1
        subst hc1
        exact hn.trans hreq.symm
    · rw [h7, hn]; exact hsum
    · rw [hn, hsum] at h9
      rw [← h9, List.take_of_length_le (Nat.le_of_eq h6)]

/-- Witness for C11 (amended): a payload of `2 ^ 31 + 5` bytes behind a 1024 byte header,
every call returning the full count: the transfer ends, no call requests more than
`2 ^ 30` bytes and `2 ^ 31 + 5` bytes are transferred; and the four payload bytes of the
one-voxel file arrive in file order. -/
theorem chunked_transfer_witness :
    (2 ^ 31 + 5 < SIZE_T_RANGE ∧
      (List.replicate (2 ^ 31 + 5) (0 : Byte)).length = 2 ^ 31 + 5 ∧
      1024 + (2 ^ 31 + 5) ≤ (List.replicate (1024 + (2 ^ 31 + 5)) (7 : Byte)).length) ∧
    (∃ st, win32_transfer (List.replicate (1024 + (2 ^ 31 + 5)) 7) (fun _ => CHUNK)
        (2 ^ 31 + 5) (List.replicate (2 ^ 31 + 5) 0) (2 ^ 31 + 5) 1024 = some st ∧
      st.transferred = 2 ^ 31 + 5 ∧ ∀ c ∈ st.calls, c.1 ≤ CHUNK) ∧
    (win32_transfer (List.replicate 1024 0 ++ [0x00, 0x00, 0x80, 0x3F]) (fun _ => CHUNK) 0
      [0, 0, 0, 0] 4 1024).map (fun st => (st.data, st.calls)) =
        some ([0x00, 0x00, 0x80, 0x3F], [(4, 4)]) :=
  have hfile : 1024 + (2 ^ 31 + 5) ≤ (List.replicate (1024 + (2 ^ 31 + 5)) (7 : Byte)).length :=
    Nat.le_of_eq (List.length_replicate _ _).symm
  have h := chunked_transfer (List.replicate (1024 + (2 ^ 31 + 5)) 7) (fun _ => CHUNK)
    (List.replicate (2 ^ 31 + 5) 0) (2 ^ 31 + 5) 1024 (by decide) (List.length_replicate _ _)
  ⟨⟨by decide, List.length_replicate _ _, hfile⟩,
    (h.2.2 hfile (fun _ => Nat.le_refl _) (2 ^ 31 + 5) (Nat.le_refl _)).elim
      (fun st hst => ⟨st, hst.1, hst.2.2.1, fun c hc => ((h.1 _ st hst.1).1 c hc).1⟩),
    by decide⟩

/-! ## Auxiliary lemmas on the `_WIN32` branch of `read_data` -/

theorem win32_transfer_facts (file : List Byte) (grant : Nat → Nat) (fuel : Nat)
    (data : List Byte) (length pos : Nat) (hR : length < SIZE_T_RANGE)
    (hdata : data.length = length) (st : ChunkedRead)
    (h : win32_transfer file grant fuel data length pos = some st) :
    st.transferred ≤ length ∧ st.data.length = length ∧
    st.data.take st.transferred = (file.drop pos).take st.transferred := by
  have h0 := initial_inv file data length pos hdata
  obtain ⟨r, hr, hst⟩ := win32_transfer_inversion file grant fuel data length pos st h
  obtain ⟨hinv, hle⟩ := chunk_loop_exit file grant length pos hR fuel _ r h0 hr
  have hreq : toDWORD r.read_length ≤ r.read_length := toDWORD_le _
  obtain ⟨h1, -, -, -, -, h6, h7, -, h9, -, -⟩ := ReadFile_spec file length pos
    (grant r.calls.length) (toDWORD r.read_length) r hinv hreq (Nat.le_trans hreq hle)
  have hsum := hinv.2.1
  subst hst
  refine ⟨?_, h6, ?_⟩
  · rw [h7]; omega
  · rw [h7]; exact h9

theorem win32_transfer_full_facts (file : List Byte) (grant : Nat → Nat) (fuel : Nat)
    (data : List Byte) (length pos : Nat) (hR : length < SIZE_T_RANGE)
    (hdata : data.length = length) (hfile : pos + length ≤ file.length)
    (hfull : ∀ i, CHUNK ≤ grant i) (st : ChunkedRead)
    (h : win32_transfer file grant fuel data length pos = some st) :
    st.transferred = length ∧ st.data = (file.drop pos).take length := by
  have h0 := initial_inv file data length pos hdata
  obtain ⟨r, hr, hst⟩ := win32_transfer_inversion file grant fuel data length pos st h
  obtain ⟨hinv, hle⟩ := chunk_loop_exit file grant length pos hR fuel _ r h0 hr
  have hreq : toDWORD r.read_length = r.read_length :=
    Nat.mod_eq_of_lt (Nat.lt_of_le_of_lt hle (by decide))
  obtain ⟨-, h2, -, -, -, h6, h7, -, h9, -, -⟩ := ReadFile_spec file length pos
    (grant r.calls.length) (toDWORD r.read_length) r hinv (Nat.le_of_eq hreq)
    (by rw [hreq]; exact hle)
  have hsum := hinv.2.1
  have hg := hfull r.calls.length
  have hn : (ReadFile file (grant r.calls.length) (toDWORD r.read_length) r).1 =
      r.read_length := by
    rw [h2, hreq]; omega
  subst hst
  refine ⟨?_, ?_⟩
  · rw [h7, hn]; exact hsum
  · rw [hn, hsum] at h9
    rw [← h9, List.take_of_length_le (Nat.le_of_eq h6)]

theorem read_data_win32_of_early (c : MRCConsts) (w : World) (grant : Nat → Nat)
    (fuel : Nat) (s : MRCLayerImporterPrivate)
    (h : (read_data c w s).1 ≠ Ret.value true) :
    read_data_win32 c w grant fuel s = some (read_data c w s) := by
  cases hs : s.read_data_
  · have hs1 : ¬ s.read_data_ = true := by simp [hs]
    cases hh : (read_header c w.reader s).1
    · rw [read_data_of_header_failure c w s hs hh]
      unfold read_data_win32
      rw [if_neg hs1]
      rcases hr : read_header c w.reader s with ⟨b, s1⟩
      rw [hr] at hh
      simp only at hh
      subst hh
      rfl
    · cases ha : w.block_alloc
      · rw [read_data_of_alloc_failure c w s hs hh ha]
        unfold read_data_win32
        rw [if_neg hs1]
        rcases hr : read_header c w.reader s with ⟨b, s1⟩
        rw [hr] at hh
        simp only at hh
        subst hh
        simp [ha]
      · cases hf : w.file with
        | none =>
          rw [read_data_of_open_failure c w s hs hh ha hf]
          unfold read_data_win32
          rw [if_neg hs1]
          rcases hr : read_header c w.reader s with ⟨b, s1⟩
          rw [hr] at hh
          simp only at hh
          subst hh
          simp [ha, hf, allocated_state]
        | some bytes =>
          cases hl : length_check_fails c (bytes.length % SIZE_T_RANGE)
              (payload_length (read_header c w.reader s).2)
          · cases hn : w.new_char with
            | none =>
              rw [read_data_of_new_failure c w s bytes hs hh ha hf hl hn]
              unfold read_data_win32
              rw [if_neg hs1]
              rcases hr : read_header c w.reader s with ⟨b, s1⟩
              rw [hr] at hh hl
              simp only at hh hl
              subst hh
              simp only [payload_length] at hl
              simp [ha, hf, hl, hn, allocated_state]
            | some init =>
              rw [read_data_of_transfer c w s bytes init hs hh ha hf hl hn] at h
              exact absurd rfl h
          · rw [read_data_of_bad_length c w s bytes hs hh ha hf hl]
            unfold read_data_win32
            rw [if_neg hs1]
            rcases hr : read_header c w.reader s with ⟨b, s1⟩
            rw [hr] at hh hl
            simp only at hh hl
            subst hh
            simp only [payload_length] at hl
            simp [ha, hf, hl, allocated_state]
  · rw [read_data_of_cached c w s hs] at h
    exact absurd rfl h

theorem read_data_win32_of_transfer (c : MRCConsts) (w : World) (grant : Nat → Nat)
    (fuel : Nat) (s : MRCLayerImporterPrivate) (bytes : List Byte) (init : Nat → Byte)
    (hs : s.read_data_ = false)
    (hh : (read_header c w.reader s).1 = true) (ha : w.block_alloc = true)
    (hf : w.file = some bytes)
    (hl : length_check_fails c (bytes.length % SIZE_T_RANGE)
      (payload_length (read_header c w.reader s).2) = false)
    (hn : w.new_char = some init) :
    read_data_win32 c w grant fuel s =
      (win32_transfer bytes grant fuel
        (filled_buffer init (payload_length (read_header c w.reader s).2) [])
        (payload_length (read_header c w.reader s).2) c.MRC_HEADER_LENGTH).map
        (fun tr => (Ret.value true,
          { (read_header c w.reader s).2 with
            data_block_ := some (stored_block (read_header c w.reader s).2 tr.data)
            read_data_ := true })) := by
  unfold read_data_win32
  rw [if_neg (by simp [hs])]
  rcases hr : read_header c w.reader s with ⟨b, s1⟩
  rw [hr] at hh hl
  simp only at hh hl
  subst hh
  simp only [payload_length] at hl
  simp only [ha, hf, hl, hn, payload_length, stored_block]
  cases win32_transfer bytes grant fuel
      (filled_buffer init (mulSizeT (StdDataBlock.New s1.grid_transform_.nx
        s1.grid_transform_.ny s1.grid_transform_.nz s1.data_type_).get_size
        (GetSizeDataType s1.data_type_)) [])
      (mulSizeT (StdDataBlock.New s1.grid_transform_.nx
        s1.grid_transform_.ny s1.grid_transform_.nz s1.data_type_).get_size
        (GetSizeDataType s1.data_type_)) c.MRC_HEADER_LENGTH with
  | none => simp
  | some tr => simp

/-! ## The payload transfer is not checked -/

/-- C8 (counterexample): the one-voxel float32 file holds its full 1024 byte header and
its four payload bytes, so the length test passes; the `ReadFile` call fails and
delivers none of the four bytes expected; `read_data` nevertheless returns true, sets
`read_data_`, sets no error and stores the buffer as it was allocated. -/
theorem read_data_win32_ignores_failed_read :
    expected_bytes (read_header mrc2000 patternWorld.reader MRCLayerImporterPrivate.init).2 =
      4 ∧
    patternWorld.file.map List.length = some (1024 + 4) ∧
    (win32_transfer (List.replicate 1024 0 ++ [0x00, 0x00, 0x80, 0x3F]) (fun _ => 0) 0
      (filled_buffer (fun _ => 0xAA) 4 []) 4 mrc2000.MRC_HEADER_LENGTH).map
        (fun tr => tr.transferred) = some 0 ∧
    (read_data_win32 mrc2000 patternWorld (fun _ => 0) 0 MRCLayerImporterPrivate.init).map
      (fun r => (r.1, r.2.read_data_, r.2.importer_.error,
        r.2.data_block_.map (fun blk => blk.data))) =
      some (Ret.value true, true, none, some [0xAA, 0xAA, 0xAA, 0xAA]) := by
  decide

/-- C8 (amended): `read_data` never inspects the result of the payload transfer; a short
payload is caught only by the length test made before the transfer.  For a call not
answered from the cache, on a file at least `MRC_HEADER_LENGTH` long and a geometry
whose expected byte count fits a `size_t`: (1) a file that holds fewer than
`MRC_HEADER_LENGTH + expected_bytes` bytes makes `read_data` return false with an error
set and `read_data_` left false, on both branches and before any transfer; (2) every
false return leaves `read_data_` false with an error set; (3) a true return means that
the file held `MRC_HEADER_LENGTH + expected_bytes` bytes, `read_data_` is set and the
buffer the transfer filled (stored in the data block, byte-swapped if asked for) is
`expected_bytes` long, the bytes `ReadFile` delivered lying in file order at its start,
their number being `expected_bytes` when every call returned the full count; (4) once the length test has passed and the buffer is allocated, `read_data`
returns true and sets `read_data_` whatever the calls of a transfer that came to an end
delivered. -/
theorem read_data_transfer_unchecked (c : MRCConsts) (w : World)
    (s : MRCLayerImporterPrivate) (bytes : List Byte) (hs : s.read_data_ = false)
    (hf : w.file = some bytes) (hlo : c.MRC_HEADER_LENGTH ≤ bytes.length)
    (hhi : bytes.length < SIZE_T_RANGE)
    (hfit : expected_bytes (read_header c w.reader s).2 < SIZE_T_RANGE) :
    (bytes.length < c.MRC_HEADER_LENGTH + expected_bytes (read_header c w.reader s).2 →
      (read_data c w s).1 = Ret.value false ∧
      (read_data c w s).2.read_data_ = false ∧
      (∃ msg, (read_data c w s).2.importer_.error = some msg) ∧
      ∀ grant fuel, read_data_win32 c w grant fuel s = some (read_data c w s)) ∧
    (((read_data c w s).1 = Ret.value false →
        (read_data c w s).2.read_data_ = false ∧
        ∃ msg, (read_data c w s).2.importer_.error = some msg) ∧
      ∀ grant fuel st, read_data_win32 c w grant fuel s = some (Ret.value false, st) →
        st.read_data_ = false ∧ ∃ msg, st.importer_.error = some msg) ∧
    (((read_data c w s).1 = Ret.value true →
        c.MRC_HEADER_LENGTH + expected_bytes (read_header c w.reader s).2 ≤ bytes.length ∧
        (read_data c w s).2.read_data_ = true) ∧
      ∀ grant fuel st, read_data_win32 c w grant fuel s = some (Ret.value true, st) →
        c.MRC_HEADER_LENGTH + expected_bytes (read_header c w.reader s).2 ≤ bytes.length ∧
        st.read_data_ = true ∧
        ∃ init tr, w.new_char = some init ∧
          win32_transfer bytes grant fuel
            (filled_buffer init (expected_bytes (read_header c w.reader s).2) [])
            (expected_bytes (read_header c w.reader s).2) c.MRC_HEADER_LENGTH = some tr ∧
          st.data_block_ = some (stored_block (read_header c w.reader s).2 tr.data) ∧
          tr.data.length = expected_bytes (read_header c w.reader s).2 ∧
          tr.transferred ≤ expected_bytes (read_header c w.reader s).2 ∧
          tr.data.take tr.transferred =
            (bytes.drop c.MRC_HEADER_LENGTH).take tr.transferred ∧
          ((∀ i, CHUNK ≤ grant i) →
            tr.transferred = expected_bytes (read_header c w.reader s).2 ∧
            tr.data = (bytes.drop c.MRC_HEADER_LENGTH).take
              (expected_bytes (read_header c w.reader s).2))) ∧
    (∀ grant fuel init tr, (read_header c w.reader s).1 = true → w.block_alloc = true →
      c.MRC_HEADER_LENGTH + expected_bytes (read_header c w.reader s).2 ≤ bytes.length →
      w.new_char = some init →
      win32_transfer bytes grant fuel
        (filled_buffer init (expected_bytes (read_header c w.reader s).2) [])
        (expected_bytes (read_header c w.reader s).2) c.MRC_HEADER_LENGTH = some tr →
      read_data_win32 c w grant fuel s = some (Ret.value true,
        { (read_header c w.reader s).2 with
          data_block_ := some (stored_block (read_header c w.reader s).2 tr.data)
          read_data_ := true })) := by
  have hpl := payload_length_eq _ hfit
  have hiff := length_check_fails_iff c bytes.length
    (payload_length (read_header c w.reader s).2) hlo hhi
  rw [hpl] at hiff
  have hbuf : ∀ init : Nat → Byte,
      (filled_buffer init (expected_bytes (read_header c w.reader s).2) []).length =
        expected_bytes (read_header c w.reader s).2 :=
    fun init => filled_buffer_length init _ [] (Nat.zero_le _)
  -- what a true return of the `std::ifstream` branch tells about the environment
  have hinv : (read_data c w s).1 = Ret.value true →
      ∃ init, (read_header c w.reader s).1 = true ∧ w.block_alloc = true ∧
        length_check_fails c (bytes.length % SIZE_T_RANGE)
          (payload_length (read_header c w.reader s).2) = false ∧
        w.new_char = some init ∧
        c.MRC_HEADER_LENGTH + expected_bytes (read_header c w.reader s).2 ≤ bytes.length := by
    intro ht
    obtain ⟨bytes1, init, hh, ha, hf1, hl, hn, -⟩ := read_data_inversion c w s hs ht
    have hb : bytes1 = bytes := by
      rw [hf] at hf1
      exact (Option.some.inj hf1).symm
    subst hb
    refine ⟨init, hh, ha, hl, hn, ?_⟩
    have hn1 : ¬ bytes1.length <
        c.MRC_HEADER_LENGTH + expected_bytes (read_header c w.reader s).2 := by
      intro hlt
      have := hiff.mpr hlt
      rw [hpl] at hl
      rw [hl] at this
      exact absurd this (by simp)
    omega
  have hshort : bytes.length <
      c.MRC_HEADER_LENGTH + expected_bytes (read_header c w.reader s).2 →
      (read_data c w s).1 = Ret.value false := by
    intro hlt
    have hl := hiff.mpr hlt
    rw [← hpl] at hl
    cases hh : (read_header c w.reader s).1
    · rw [read_data_of_header_failure c w s hs hh]
    · cases ha : w.block_alloc
      · rw [read_data_of_alloc_failure c w s hs hh ha]
      · rw [read_data_of_bad_length c w s bytes hs hh ha hf hl]
  refine ⟨?_, ⟨read_data_failure c w s, ?_⟩, ⟨?_, ?_⟩, ?_⟩
  · intro hlt
    have hfalse := hshort hlt
    obtain ⟨hflag, herr⟩ := read_data_failure c w s hfalse
    refine ⟨hfalse, hflag, herr, ?_⟩
    intro grant fuel
    exact read_data_win32_of_early c w grant fuel s (by rw [hfalse]; simp)
  · intro grant fuel st hres
    by_cases ht : (read_data c w s).1 = Ret.value true
    · obtain ⟨init, hh, ha, hl, hn, -⟩ := hinv ht
      rw [read_data_win32_of_transfer c w grant fuel s bytes init hs hh ha hf hl hn] at hres
      cases htr : win32_transfer bytes grant fuel
          (filled_buffer init (payload_length (read_header c w.reader s).2) [])
          (payload_length (read_header c w.reader s).2) c.MRC_HEADER_LENGTH with
      | none => rw [htr] at hres; simp at hres
      | some tr => rw [htr] at hres; simp at hres
    · rw [read_data_win32_of_early c w grant fuel s ht] at hres
      have hrd : read_data c w s = (Ret.value false, st) := Option.some.inj hres
      have h1 : (read_data c w s).1 = Ret.value false := by rw [hrd]
      have := read_data_failure c w s h1
      rw [hrd] at this
      exact this
  · intro ht
    exact ⟨(hinv ht).elim (fun _ h => h.2.2.2.2), read_data_flag_of_true c w s ht⟩
  · intro grant fuel st hres
    by_cases ht : (read_data c w s).1 = Ret.value true
    · obtain ⟨init, hh, ha, hl, hn, hle⟩ := hinv ht
      rw [read_data_win32_of_transfer c w grant fuel s bytes init hs hh ha hf hl hn,
        hpl] at hres
      cases htr : win32_transfer bytes grant fuel
          (filled_buffer init (expected_bytes (read_header c w.reader s).2) [])
          (expected_bytes (read_header c w.reader s).2) c.MRC_HEADER_LENGTH with
      | none => rw [htr] at hres; simp at hres
      | some tr =>
        rw [htr] at hres
        have hst : st = { (read_header c w.reader s).2 with
            data_block_ := some (stored_block (read_header c w.reader s).2 tr.data)
            read_data_ := true } := by
          have := Option.some.inj hres
          exact (congrArg Prod.snd this).symm
        obtain ⟨f1, f2, f3⟩ := win32_transfer_facts bytes grant fuel _ _ _ hfit (hbuf init)
          tr htr
        refine ⟨hle, by rw [hst], init, tr, hn, htr, by rw [hst], f2, f1, f3, ?_⟩
        intro hfull
        exact win32_transfer_full_facts bytes grant fuel _ _ _ hfit (hbuf init) hle hfull
          tr htr
    · rw [read_data_win32_of_early c w grant fuel s ht] at hres
      have hrd : read_data c w s = (Ret.value true, st) := Option.some.inj hres
      exact absurd (by rw [hrd]) ht
  · intro grant fuel init tr hh ha hle hn htr
    have hl : length_check_fails c (bytes.length % SIZE_T_RANGE)
        (payload_length (read_header c w.reader s).2) = false := by
      rw [hpl]
      cases hc : length_check_fails c (bytes.length % SIZE_T_RANGE)
          (expected_bytes (read_header c w.reader s).2)
      · rfl
      · have := hiff.mp hc
        omega
    rw [read_data_win32_of_transfer c w grant fuel s bytes init hs hh ha hf hl hn, hpl, htr]
    rfl

/-- Witness for C8 (amended): on the one-voxel float32 file with its full header and four
payload bytes, a `ReadFile` call that delivers three of the four bytes still gives a
true return with `read_data_` set. -/
theorem read_data_transfer_unchecked_witness :
    (MRCLayerImporterPrivate.init.read_data_ = false ∧
      patternWorld.file = some (List.replicate 1024 0 ++ [0x00, 0x00, 0x80, 0x3F]) ∧
      mrc2000.MRC_HEADER_LENGTH ≤
        (List.replicate 1024 (0 : Byte) ++ [0x00, 0x00, 0x80, 0x3F]).length ∧
      (List.replicate 1024 (0 : Byte) ++ [0x00, 0x00, 0x80, 0x3F]).length < SIZE_T_RANGE ∧
      expected_bytes (read_header mrc2000 patternWorld.reader
        MRCLayerImporterPrivate.init).2 < SIZE_T_RANGE) ∧
    (read_data_win32 mrc2000 patternWorld (fun _ => 3) 0 MRCLayerImporterPrivate.init).map
      (fun r => (r.1, r.2.read_data_)) = some (Ret.value true, true) ∧
    (win32_transfer (List.replicate 1024 0 ++ [0x00, 0x00, 0x80, 0x3F]) (fun _ => 3) 0
      (filled_buffer (fun _ => 0xAA) 4 []) 4 mrc2000.MRC_HEADER_LENGTH).map
        (fun tr => (tr.transferred, tr.data)) = some (3, [0x00, 0x00, 0x80, 0xAA]) :=
  have h := read_data_transfer_unchecked mrc2000 patternWorld MRCLayerImporterPrivate.init
    (List.replicate 1024 0 ++ [0x00, 0x00, 0x80, 0x3F]) rfl rfl (by decide) (by decide)
    (by decide)
  ⟨⟨rfl, rfl, by decide, by decide, by decide⟩,
    congrArg (Option.map (fun r => (r.1, r.2.read_data_)))
      (h.2.2.2 (fun _ => 3) 0 (fun _ => 0xAA) ⟨[0x00, 0x00, 0x80, 0xAA], 0, 4, 1027, [(4, 3)]⟩
        (by decide) rfl (by decide) rfl (by decide)),
    by decide⟩

end Seg3D
